import Mathlib

/-!
Verification development for the skillence_ai generation-and-validation
pipeline.  The Python sources under `agents/` and `api/services/` are
embedded shallowly:

* machine text is `String` / `List Char`; Python `re` operations used by the
  sources (whitespace collapsing, run splitting, character-class matching)
  are embedded as explicit scans over character lists;
* Python floats are embedded as exact rationals (`ℚ`); the float constant
  `1.2` used by `token_utils.estimate_tokens` together with `int(...)`
  truncation is embedded as exact multiplication by `6/5` followed by floor,
  which agrees with the CPython double computation on the whole range of
  realistic inputs (the argument is an integer below `2^40`);
* the OpenAI client is embedded as an oracle `Nat → CallOutcome` giving the
  outcome of each successive remote call (a reply plus reported token usage,
  or an exception message); `HTTPException` and uncaught Python exceptions
  (`TypeError`, `AttributeError`, `ValueError`) become the `Failure` type;
* SQLAlchemy rows become Lean structures, the `requests` table becomes a
  list in insertion order, `query(...).first()` becomes `List.find?`, and
  the fresh `uuid4` identifiers are passed in as parameters;
* `hashlib.sha256(...).hexdigest()` is embedded as an arbitrary digest
  function `H : String → String` applied to the exact serialized payload, so
  every hash-equality statement is proved for all digest functions (SHA-256
  included) from equality of the serialized bytes.
-/

namespace Skillence

attribute [local semireducible] Rat.mul Rat.add Rat.sub Rat.inv Rat.ofScientific

set_option maxRecDepth 16384

/-! ## Python-style character and string utilities -/

/-- The whitespace characters recognised by Python `str.split()`, `str.strip()`
and `re` `\s` on the ASCII range: space, tab, newline, carriage return,
form feed and vertical tab. -/
def isPyWs (c : Char) : Bool :=
  c = ' ' || c = '\t' || c = '\n' || c = '\x0d' || c = '\x0c' || c = '\x0b'

/-- Python `str.lower()`, restricted to ASCII letters plus the accented
letters appearing in the sources' character classes (identity elsewhere). -/
def pyLowerChar (c : Char) : Char :=
  if 'A' ≤ c ∧ c ≤ 'Z' then Char.ofNat (c.toNat + 32)
  else if c = 'À' then 'à' else if c = 'Â' then 'â' else if c = 'Ä' then 'ä'
  else if c = 'É' then 'é' else if c = 'È' then 'è' else if c = 'Ê' then 'ê'
  else if c = 'Ë' then 'ë' else if c = 'Ï' then 'ï' else if c = 'Î' then 'î'
  else if c = 'Ô' then 'ô' else if c = 'Ö' then 'ö' else if c = 'Ù' then 'ù'
  else if c = 'Û' then 'û' else if c = 'Ü' then 'ü' else if c = 'Ç' then 'ç'
  else c

/-- Embedding of `str.lower()` on a whole string. -/
def pyLower (s : String) : String := String.mk (s.toList.map pyLowerChar)

/-- Embedding of `str.strip()` on a character list: drop Python whitespace at both ends. -/
def pyStripList (l : List Char) : List Char :=
  ((l.dropWhile isPyWs).reverse.dropWhile isPyWs).reverse

/-- Embedding of `str.strip()`. -/
def pyStrip (s : String) : String := String.mk (pyStripList s.toList)

/-- Embedding of `sep.join(parts)`. -/
def pyJoin (sep : String) : List String → String
  | [] => ""
  | [x] => x
  | x :: xs => x ++ sep ++ pyJoin sep xs

/-- Does `pat` occur as a contiguous substring of `s` (Python `pat in s`)?
Implemented directly over character lists. -/
def startsWithList : List Char → List Char → Bool
  | [], _ => true
  | _ :: _, [] => false
  | p :: ps, c :: cs => p = c && startsWithList ps cs

/-- Substring occurrence over character lists. -/
def substrList (pat : List Char) : List Char → Bool
  | [] => pat.isEmpty
  | c :: cs => startsWithList pat (c :: cs) || substrList pat cs

/-- Python `pat in s` on strings. -/
def pyIn (pat s : String) : Bool := substrList pat.toList s.toList

/-- Truncation `s[:n]` by code points, as in Python slicing. -/
def pyTake (n : Nat) (s : String) : String := String.mk (s.toList.take n)

mutual

/-- Replace every maximal run of characters satisfying `p` by the single
character `rep`; embeds `re.sub` of a character-class-plus pattern with a
one-character replacement.  `squeezeRunsGap` is the state "inside a run". -/
def squeezeRuns (p : Char → Bool) (rep : Char) : List Char → List Char
  | [] => []
  | c :: cs => if p c then rep :: squeezeRunsGap p rep cs else c :: squeezeRuns p rep cs

/-- State of `squeezeRuns` while consuming the remainder of a run. -/
def squeezeRunsGap (p : Char → Bool) (rep : Char) : List Char → List Char
  | [] => []
  | c :: cs => if p c then squeezeRunsGap p rep cs else c :: squeezeRuns p rep cs

end

/-- Embedding of `re.sub(r'\s+', ' ', ·)` on a character list. -/
def collapseWsList (l : List Char) : List Char := squeezeRuns isPyWs ' ' l

mutual

/-- The maximal runs of characters NOT satisfying `p`, discarding the
delimiter characters; embeds both `re.findall` of a character-class-plus
pattern and the non-empty fragments of `re.split` on a character-class-plus
pattern.  `runsNotHead` collects the rest of the current run, `runsNotTail`
skips past it. -/
def runsNot (p : Char → Bool) : List Char → List (List Char)
  | [] => []
  | c :: cs =>
    if p c then runsNot p cs
    else (c :: runsNotHead p cs) :: runsNotTail p cs

/-- Rest of the current run of non-`p` characters (a `takeWhile`). -/
def runsNotHead (p : Char → Bool) : List Char → List Char
  | [] => []
  | c :: cs => if p c then [] else c :: runsNotHead p cs

/-- Skip past the current run, then continue with `runsNot`. -/
def runsNotTail (p : Char → Bool) : List Char → List (List Char)
  | [] => []
  | c :: cs => if p c then runsNot p cs else runsNotTail p cs

end

/-- Embedding of `str.split()` with no argument: the maximal whitespace-free runs
(Python splits on whitespace runs and drops empty fragments). -/
def pySplit (s : String) : List String :=
  (runsNot isPyWs s.toList).map String.mk

/-- Python `str(bool)`. -/
def pyBoolStr (b : Bool) : String := if b then ("True") else ("False")

/-! ## Failure type

`HTTPException(status_code, detail)` raised by the sources, plus the
uncaught dynamic exceptions Python itself raises on type errors. -/

/-- A failure escaping one of the embedded functions. -/
inductive Failure where
  | http (status : Nat) (detail : String)
  | pyError (kind : String) (msg : String)
deriving DecidableEq, Repr

/-- Is the failure an `HTTPException` (as opposed to an uncaught dynamic
Python exception)? -/
def Failure.isHttp : Failure → Bool
  | .http _ _ => true
  | .pyError _ _ => false

/-- Status code of a failure (0 for non-HTTP exceptions). -/
def Failure.status : Failure → Nat
  | .http s _ => s
  | .pyError _ _ => 0

/-! ## agents/token_utils.py -/

/-- Embedding of `MAX_TOKENS_PER_REQUEST` — strict per-request budget. -/
def MAX_TOKENS_PER_REQUEST : Nat := 2000

/-- Embedding of `TOKEN_SAFETY_MARGIN` — reserved for the OpenAI response. -/
def TOKEN_SAFETY_MARGIN : Nat := 200

/-- Embedding of `MAX_PROMPT_TOKENS = MAX_TOKENS_PER_REQUEST - TOKEN_SAFETY_MARGIN`. -/
def MAX_PROMPT_TOKENS : Nat := MAX_TOKENS_PER_REQUEST - TOKEN_SAFETY_MARGIN

/-- Embedding of `estimate_tokens`: 0 for empty or whitespace-only text, otherwise
collapse whitespace runs in the stripped text, divide the character count by
4 and apply the 1.2 safety margin with truncation (`int(est * 1.2)`,
embedded exactly as `est * 6 / 5` in `ℕ`). -/
def estimate_tokens (text : String) : Nat :=
  if pyStrip text = "" then 0
  else
    let cleaned := collapseWsList (pyStripList text.toList)
    let estimated := cleaned.length / 4
    estimated * 6 / 5

/-- The remediation detail built by `validate_prompt_budget` on overflow. -/
def budget_detail (tokenCount : Nat) (subject : String) : String :=
  let s50 := pyTake 50 subject
  let ctxInfo := if s50 ≠ "" then (" pour \x27") ++ s50 ++ "\x27" else ("")
  "⚠️ Prompt trop long: " ++ toString tokenCount ++ " tokens (limite: " ++
    toString MAX_PROMPT_TOKENS ++ ")\n\n🛠️ Solutions" ++ ctxInfo ++ ":\n" ++
    "• Raccourcir le sujet (actuellement: " ++ toString subject.length ++
    " caractères)\n• Choisir une durée plus courte\n" ++
    "• Reformuler avec des termes plus simples\n\n💡 Budget MVP: " ++
    toString MAX_TOKENS_PER_REQUEST ++ " tokens max par leçon"

/-- Embedding of `validate_prompt_budget`: `none` when the prompt fits the budget,
`some` HTTP 413 failure when `estimate_tokens prompt > MAX_PROMPT_TOKENS`.
The `context` dict always carries the request subject at the call site. -/
def validate_prompt_budget (prompt : String) (subject : String) : Option Failure :=
  if prompt = "" then none
  else
    let tokenCount := estimate_tokens prompt
    if tokenCount > MAX_PROMPT_TOKENS then
      some (.http 413 (budget_detail tokenCount subject))
    else none

/-! ## agents/quality_utils.py -/

/-- Per-audience acceptability band from `FK_THRESHOLDS` (min, max,
description). -/
structure FkBand where
  min : Nat
  max : Nat
  description : String
deriving DecidableEq, Repr

/-- Embedding of `FK_THRESHOLDS`, keyed by audience label. -/
def FK_THRESHOLDS : List (String × FkBand) :=
  [("enfant", ⟨80, 100, "Phrases courtes, mots simples, analogies concrètes"⟩),
   ("lycéen", ⟨60, 80, "Vocabulaire étendu, concepts abstraits accessibles"⟩),
   ("adulte", ⟨40, 70, "Terminologie technique, raisonnements complexes acceptés"⟩)]

/-- Dictionary lookup in `FK_THRESHOLDS`. -/
def fkLookup (audience : String) : Option FkBand :=
  (FK_THRESHOLDS.find? (fun kv => kv.1 = audience)).map (·.2)

/-- Embedding of `ReadabilityScore` dataclass.  Floats are embedded as exact rationals. -/
structure ReadabilityScore where
  flesch_kincaid : ℚ
  word_count : Nat
  sentence_count : Nat
  avg_words_per_sentence : ℚ
  avg_syllables_per_word : ℚ
  is_valid_for_audience : Bool
  validation_message : String
  audience_target : String
deriving DecidableEq, Repr

/-- Vowels used by `count_syllables`. -/
def frVowels : List Char := "aeiouàáâäèéêëìíîïòóôöùúûü".toList

/-- Is the character a vowel for syllable counting? -/
def isFrVowel (c : Char) : Bool := frVowels.contains c

/-- Core loop of `count_syllables`: count transitions into a vowel run. -/
def vowelRunCount : Bool → List Char → Nat
  | _, [] => 0
  | prevWasVowel, c :: cs =>
    let isVowel := isFrVowel c
    (if isVowel && !prevWasVowel then 1 else 0) + vowelRunCount isVowel cs

/-- Embedding of `count_syllables`: at least 1; words shorter than 2 characters count 1;
otherwise lower-case the word and count vowel runs (minimum 1). -/
def count_syllables (word : List Char) : Nat :=
  if word.length < 2 then 1
  else Nat.max 1 (vowelRunCount false (word.map pyLowerChar))

/-- Characters removed wholesale by the Markdown cleanup
(`re.sub(r'[*_`\[\]]+', '', ·)`). -/
def isMdFmtChar (c : Char) : Bool := "*_`[]".toList.contains c

mutual

/-- Embedding of `re.sub(r'#{1,6}\s*', '', ·)`: scan the text; at a `#`, consume up to
six `#` then the following whitespace run, then resume scanning. -/
def stripHeaders : List Char → List Char
  | [] => []
  | c :: cs => if c = '#' then stripHeadersHash 5 cs else c :: stripHeaders cs

/-- Consume up to `n` further `#` of the current header match. -/
def stripHeadersHash (n : Nat) : List Char → List Char
  | [] => []
  | c :: cs =>
    if c = '#' ∧ n ≠ 0 then stripHeadersHash (n - 1) cs
    else if isPyWs c then stripHeadersWs cs
    else if c = '#' then stripHeadersHash 5 cs
    else c :: stripHeaders cs

/-- Consume the `\s*` part of the current header match, then resume. -/
def stripHeadersWs : List Char → List Char
  | [] => []
  | c :: cs =>
    if isPyWs c then stripHeadersWs cs
    else if c = '#' then stripHeadersHash 5 cs
    else c :: stripHeaders cs

end

/-- The word characters of `parse_text_stats`
(`[a-zA-ZàâäéèêëïîôöùûüçÀÂÄÉÈÊËÏÎÔÖÙÛÜÇ]`). -/
def isFrLetter (c : Char) : Bool :=
  ('a' ≤ c ∧ c ≤ 'z') || ('A' ≤ c ∧ c ≤ 'Z') ||
  "àâäéèêëïîôöùûüçÀÂÄÉÈÊËÏÎÔÖÙÛÜÇ".toList.contains c

/-- Sentence delimiters `[.!?]`. -/
def isSentenceDelim (c : Char) : Bool := c = '.' || c = '!' || c = '?'

/-- The cleanup pipeline of `parse_text_stats`: strip headers, drop
formatting characters, turn newline runs into spaces, strip, collapse
whitespace runs. -/
def cleanMarkdown (text : List Char) : List Char :=
  let c1 := stripHeaders text
  let c2 := c1.filter (fun c => !isMdFmtChar c)
  let c3 := squeezeRuns (fun c => c = '\n') ' ' c2
  collapseWsList (pyStripList c3)

/-- The sentence fragments kept by `parse_text_stats`: fragments between
`[.!?]+` runs whose stripped length exceeds 2.  (`re.split` also produces
empty fragments; they are discarded by this very filter, so only the maximal
non-delimiter runs matter.) -/
def sentenceFragments (cleaned : List Char) : List (List Char) :=
  ((runsNot isSentenceDelim cleaned).map pyStripList).filter
    (fun s => s ≠ [] ∧ s.length > 2)

/-- The words of `parse_text_stats`: maximal runs of word characters of
length at least 2 (`re.findall` of the letter-class `{2,}` pattern). -/
def statWords (cleaned : List Char) : List (List Char) :=
  (runsNot (fun c => !isFrLetter c) cleaned).filter (fun w => w.length ≥ 2)

/-- Embedding of `parse_text_stats`: (word count, sentence count, average words per
sentence, average syllables per word). -/
def parse_text_stats (text : String) : Nat × Nat × ℚ × ℚ :=
  if pyStrip text = "" then (0, 0, 0, 0)
  else
    let cleaned := cleanMarkdown text.toList
    if cleaned = [] ∨ (pyStripList cleaned).length < 2 then (0, 0, 0, 0)
    else
      let sentence_count := (sentenceFragments cleaned).length
      if sentence_count = 0 then (0, 0, 0, 0)
      else
        let words := statWords cleaned
        let word_count := words.length
        if word_count = 0 then (word_count, sentence_count, 0, 0)
        else
          let avg_words_per_sentence : ℚ := (word_count : ℚ) / (sentence_count : ℚ)
          let total_syllables := (words.map count_syllables).sum
          let avg_syllables_per_word : ℚ := (total_syllables : ℚ) / (word_count : ℚ)
          (word_count, sentence_count, avg_words_per_sentence, avg_syllables_per_word)

/-- The linear readability formula `207 - 1.015·wps - 84.6·spw`. -/
def fkFormula (avgWordsPerSentence avgSyllablesPerWord : ℚ) : ℚ :=
  207 - (1.015 * avgWordsPerSentence) - (84.6 * avgSyllablesPerWord)

/-- Clamp to the interval `[0, 100]` (`max(0.0, min(100.0, ·))`, written
with explicit comparisons so that it evaluates by kernel reduction). -/
def clamp0100 (q : ℚ) : ℚ :=
  let m := if q ≤ 100 then q else 100
  if 0 ≤ m then m else 0

/-- Embedding of `calculate_flesch_kincaid_french`: 0 when there are no words or no
sentences, otherwise the formula clamped to `[0, 100]`. -/
def calculate_flesch_kincaid_french (text : String) : ℚ :=
  let stats := parse_text_stats text
  if stats.1 = 0 ∨ stats.2.1 = 0 then 0
  else clamp0100 (fkFormula stats.2.2.1 stats.2.2.2)

/-- Floor of a rational as an integer (`num.fdiv den`, kernel-computable;
agrees with the mathematical floor since the denominator is positive). -/
def ratFloor (q : ℚ) : ℤ := q.num.fdiv q.den

/-- Python `f"{x:.1f}"` / `str(round(x, 1))` for the non-negative rationals
appearing in the messages: one decimal digit, ties rounded up (CPython
rounds ties of the underlying double to even; the difference only shows on
exact ties of the decimal representation). -/
def fmt1 (q : ℚ) : String :=
  let m := (ratFloor (q * 10 + 1/2)).toNat
  toString (m / 10) ++ "." ++ toString (m % 10)

/-- Embedding of `round(x, 1)` as an exact rational (same tie note as `fmt1`). -/
def round1 (q : ℚ) : ℚ := (ratFloor (q * 10 + 1/2) : ℚ) / 10

/-- Embedding of `validate_readability_for_audience`: `ValueError` message for an
unsupported audience, otherwise the full `ReadabilityScore`. -/
def validate_readability_for_audience (text : String) (audience : String) :
    Except String ReadabilityScore :=
  match fkLookup audience with
  | none =>
    .error ("Audience \x27" ++ audience ++
      "\x27 non supportée. Choix: [\x27enfant\x27, \x27lycéen\x27, \x27adulte\x27]")
  | some thresholds =>
    let stats := parse_text_stats text
    let fk_score := calculate_flesch_kincaid_french text
    let is_valid := (thresholds.min : ℚ) ≤ fk_score ∧ fk_score ≤ (thresholds.max : ℚ)
    let validation_message :=
      if is_valid then
        ("✅ Lisibilité adaptée au niveau ") ++ audience ++ " (score: " ++
          fmt1 fk_score ++ ")"
      else if fk_score < (thresholds.min : ℚ) then
        ("⚠️ Texte trop difficile pour ") ++ audience ++ " (score: " ++
          fmt1 fk_score ++ ", attendu: ≥" ++ toString thresholds.min ++
          ")\n💡 Suggestions: raccourcir les phrases (" ++ fmt1 stats.2.2.1 ++
          " mots/phrase), utiliser des mots plus simples"
      else
        ("ℹ️ Texte très facile pour ") ++ audience ++ " (score: " ++
          fmt1 fk_score ++ ", max recommandé: " ++ toString thresholds.max ++
          ")\n💡 Peut être enrichi avec du vocabulaire plus spécialisé"
    .ok ⟨fk_score, stats.1, stats.2.1, stats.2.2.1, stats.2.2.2,
         decide is_valid, validation_message, audience⟩

/-- Embedding of `_get_readability_level`. -/
def get_readability_level (fk_score : ℚ) : String :=
  if fk_score ≥ 80 then ("Très facile")
  else if fk_score ≥ 60 then ("Facile")
  else if fk_score ≥ 40 then ("Assez difficile")
  else if fk_score ≥ 20 then ("Difficile")
  else ("Très difficile")

/-- The summary dict returned by `get_readability_summary`, as a record in
insertion order of the Python dict. -/
structure RSummary where
  flesch_kincaid_score : ℚ
  readability_level : String
  word_count : Nat
  is_appropriate_for_audience : Bool
  audience_target : String
  quality_message : String
deriving DecidableEq, Repr

/-- Embedding of `get_readability_summary`. -/
def get_readability_summary (score : ReadabilityScore) : RSummary :=
  ⟨round1 score.flesch_kincaid,
   get_readability_level score.flesch_kincaid,
   score.word_count,
   score.is_valid_for_audience,
   score.audience_target,
   match score.validation_message.splitOn ("\n") with
   | [] => ""
   | line :: _ => line⟩

/-! ## agents/lesson_generator.py — data model -/

/-- The closed audience set (`Literal["enfant", "lycéen", "adulte"]`). -/
inductive Audience where
  | enfant
  | lyceen
  | adulte
deriving DecidableEq, Repr

/-- The audience label string. -/
def Audience.label : Audience → String
  | .enfant => "enfant"
  | .lyceen => "lycéen"
  | .adulte => "adulte"

/-- The closed duration set (`Literal["short", "medium", "long"]`). -/
inductive Duration where
  | short
  | medium
  | long
deriving DecidableEq, Repr

/-- The duration label string. -/
def Duration.label : Duration → String
  | .short => "short"
  | .medium => "medium"
  | .long => "long"

/-- Embedding of `LessonRequest`: the `subject` field holds the value produced by the
`normalize_subject` validator. -/
structure LessonRequest where
  subject : String
  audience : Audience
  duration : Duration
deriving DecidableEq, Repr

/-- The `normalize_subject` field validator:
`" ".join(value.split())`, rejected when shorter than 2 characters. -/
def normalize_subject (value : String) : Except String String :=
  let normalized := pyJoin (" ") (pySplit value)
  if normalized.length < 2 then
    .error ("Le sujet doit contenir au moins 2 caractères significatifs")
  else .ok normalized

/-- Constructing a `LessonRequest` through pydantic validation: the
`min_length`/`max_length` field constraints on the raw subject, then the
`normalize_subject` validator. -/
def mk_lesson_request (subject : String) (audience : Audience) (duration : Duration) :
    Except String LessonRequest :=
  if subject.length < 2 ∨ subject.length > 200 then .error ("String length out of range")
  else (normalize_subject subject).map (fun s => ⟨s, audience, duration⟩)

/-- Embedding of `LessonContent` (generator output). -/
structure LessonContent where
  title : String
  objectives : List String
  plan : List String
  content : String
deriving DecidableEq, Repr

/-- The generation prompt built by `generate_lesson` (verbatim; literal
braces written with their escapes). -/
def build_prompt (request : LessonRequest) : String :=
  "Tu es un assistant pédagogique expert. Tu dois répondre UNIQUEMENT avec un JSON valide " ++
  "contenant exactement ces 4 clés : \x27title\x27, \x27objectives\x27, \x27plan\x27, \x27content\x27.\n\n" ++
  "FOCUS: Contenu explicatif de qualité avec analogies et exemples concrets.\n\n" ++
  "Sujet: " ++ request.subject ++ "\n" ++
  "Audience: " ++ request.audience.label ++ "\n" ++
  "Durée: " ++ request.duration.label ++ "\n\n" ++
  "Format attendu:\n" ++
  "\x7b\n" ++
  "  \"title\": \"Titre adapté au niveau\",\n" ++
  "  \"objectives\": [\"Objectif pédagogique 1\", \"Objectif 2\"],\n" ++
  "  \"plan\": [\"Section 1\", \"Section 2\", \"Section 3\"],\n" ++
  "  \"content\": \"Contenu vulgarisé avec analogies et exemples\"\n" ++
  "\x7d"

/-- The prompt text before `": " ++ subject` for an `enfant`/`short`
request, as one literal (used to reason about the prompt of a request with
a very long subject without materialising the whole prompt). -/
def promptPrefixCore : String :=
  "Tu es un assistant pédagogique expert. Tu dois répondre UNIQUEMENT avec un JSON valide contenant exactement ces 4 clés : \x27title\x27, \x27objectives\x27, \x27plan\x27, \x27content\x27.\n\nFOCUS: Contenu explicatif de qualité avec analogies et exemples concrets.\n\nSujet"

/-- The prompt text after the subject for an `enfant`/`short` request, as
one literal. -/
def promptSuffix : String :=
  "\nAudience: enfant\nDurée: short\n\nFormat attendu:\n\x7b\n  \"title\": \"Titre adapté au niveau\",\n  \"objectives\": [\"Objectif pédagogique 1\", \"Objectif 2\"],\n  \"plan\": [\"Section 1\", \"Section 2\", \"Section 3\"],\n  \"content\": \"Contenu vulgarisé avec analogies et exemples\"\n\x7d"

/-! ## JSON values and `json.loads` -/

/-- JSON values.  Numbers are kept as exact rationals (Python distinguishes
int and float results of `json.loads`, but the sources only ever test
list-ness, key membership and equality with strings, on which the two
behave identically). -/
inductive JVal where
  | str (s : String)
  | num (q : ℚ)
  | bool (b : Bool)
  | null
  | arr (elems : List JVal)
  | obj (members : List (String × JVal))

/-- JSON whitespace accepted between tokens by `json.loads`. -/
def isJsonWs (c : Char) : Bool := c = ' ' || c = '\t' || c = '\n' || c = '\x0d'

/-- Hex digit value, if any. -/
def hexVal (c : Char) : Option Nat :=
  if '0' ≤ c ∧ c ≤ '9' then some (c.toNat - '0'.toNat)
  else if 'a' ≤ c ∧ c ≤ 'f' then some (c.toNat - 'a'.toNat + 10)
  else if 'A' ≤ c ∧ c ≤ 'F' then some (c.toNat - 'A'.toNat + 10)
  else none

/-- Decode one escape character after a backslash in a JSON string literal;
`\uXXXX` is decoded as a single code point (surrogate pairs are not
recombined). -/
def decodeJsonEscape (e : Char) (cs : List Char) : Except String (Char × List Char) :=
  if e = '"' then .ok ('"', cs)
  else if e = '\\' then .ok ('\\', cs)
  else if e = '/' then .ok ('/', cs)
  else if e = 'b' then .ok ('\x08', cs)
  else if e = 'f' then .ok ('\x0c', cs)
  else if e = 'n' then .ok ('\n', cs)
  else if e = 'r' then .ok ('\x0d', cs)
  else if e = 't' then .ok ('\t', cs)
  else if e = 'u' then
    match cs with
    | h1 :: h2 :: h3 :: h4 :: rest =>
      match hexVal h1, hexVal h2, hexVal h3, hexVal h4 with
      | some a, some b, some c', some d =>
        .ok (Char.ofNat (((a * 16 + b) * 16 + c') * 16 + d), rest)
      | _, _, _, _ => .error ("Invalid \\uXXXX escape")
    | _ => .error ("Invalid \\uXXXX escape")
  else .error ("Invalid \\escape")

/-- Parse the body of a JSON string literal (opening quote already
consumed), handling the standard escapes.  The fuel argument is at least
the input length at every call site, so it never runs out. -/
def parseJsonString : Nat → List Char → Except String (String × List Char)
  | 0, _ => .error ("Unterminated string")
  | _ + 1, [] => .error ("Unterminated string")
  | fuel + 1, c :: cs =>
    if c = '"' then .ok ("", cs)
    else if c = '\\' then
      match cs with
      | [] => .error ("Unterminated string")
      | e :: cs' =>
        match decodeJsonEscape e cs' with
        | .error m => .error m
        | .ok (ch, rest) =>
          match parseJsonString fuel rest with
          | .error m => .error m
          | .ok (s, rem) => .ok (String.mk (ch :: s.toList), rem)
    else if c.toNat < 32 then .error ("Invalid control character")
    else
      match parseJsonString fuel cs with
      | .error m => .error m
      | .ok (s, rem) => .ok (String.mk (c :: s.toList), rem)

/-- Is the character an ASCII digit? -/
def isDigitChar (c : Char) : Bool := '0' ≤ c ∧ c ≤ '9'

/-- Digits to a natural number. -/
def digitsToNat (l : List Char) : Nat :=
  l.foldl (fun acc c => acc * 10 + (c.toNat - '0'.toNat)) 0

/-- Parse a JSON number (integer, optional fraction; exponents are not
produced by the generator responses this pipeline handles). -/
def parseJsonNum (l : List Char) : Except String (ℚ × List Char) :=
  let (neg, l1) := match l with
    | '-' :: rest => (true, rest)
    | _ => (false, l)
  let intDigits := runsNotHead (fun c => !isDigitChar c) l1
  if intDigits = [] then .error ("Expecting value")
  else
    let l2 := l1.drop intDigits.length
    let (fracDigits, rest) := match l2 with
      | '.' :: l3 =>
        let fd := runsNotHead (fun c => !isDigitChar c) l3
        (fd, l3.drop fd.length)
      | _ => ([], l2)
    if l2 ≠ rest ∧ fracDigits = [] then .error ("Expecting digits after decimal point")
    else
      let mag : ℚ := (digitsToNat intDigits : ℚ) +
        (digitsToNat fracDigits : ℚ) / ((10 : ℚ) ^ fracDigits.length)
      .ok (if neg then -mag else mag, rest)

mutual

/-- Recursive-descent core of `json.loads`.  The fuel argument strictly
exceeds the input length at the top-level call, so it never runs out on a
terminating parse. -/
def parseJsonVal : Nat → List Char → Except String (JVal × List Char)
  | 0, _ => .error ("Expecting value")
  | fuel + 1, l =>
    match l.dropWhile isJsonWs with
    | [] => .error ("Expecting value")
    | c :: cs =>
      if c = '"' then
        match parseJsonString (cs.length + 1) cs with
        | .error m => .error m
        | .ok (s, rest) => .ok (.str s, rest)
      else if c = '\x7b' then
        match cs.dropWhile isJsonWs with
        | '\x7d' :: rest => .ok (.obj [], rest)
        | other =>
          match parseJsonMembers fuel other with
          | .error m => .error m
          | .ok (kvs, rest) => .ok (.obj kvs, rest)
      else if c = '[' then
        match cs.dropWhile isJsonWs with
        | ']' :: rest => .ok (.arr [], rest)
        | other =>
          match parseJsonElems fuel other with
          | .error m => .error m
          | .ok (xs, rest) => .ok (.arr xs, rest)
      else if c = 't' then
        match cs with
        | 'r' :: 'u' :: 'e' :: rest => .ok (.bool true, rest)
        | _ => .error ("Expecting value")
      else if c = 'f' then
        match cs with
        | 'a' :: 'l' :: 's' :: 'e' :: rest => .ok (.bool false, rest)
        | _ => .error ("Expecting value")
      else if c = 'n' then
        match cs with
        | 'u' :: 'l' :: 'l' :: rest => .ok (.null, rest)
        | _ => .error ("Expecting value")
      else
        match parseJsonNum (c :: cs) with
        | .error m => .error m
        | .ok (q, rest) => .ok (.num q, rest)

/-- Members of a JSON object after `{` (first member about to start). -/
def parseJsonMembers : Nat → List Char → Except String (List (String × JVal) × List Char)
  | 0, _ => .error ("Expecting value")
  | fuel + 1, l =>
    match l.dropWhile isJsonWs with
    | '"' :: cs =>
      match parseJsonString (cs.length + 1) cs with
      | .error m => .error m
      | .ok (key, rest1) =>
        match rest1.dropWhile isJsonWs with
        | ':' :: rest2 =>
          match parseJsonVal fuel rest2 with
          | .error m => .error m
          | .ok (v, rest3) =>
            match rest3.dropWhile isJsonWs with
            | ',' :: rest4 =>
              match parseJsonMembers fuel rest4 with
              | .error m => .error m
              | .ok (kvs, rest5) => .ok ((key, v) :: kvs, rest5)
            | '\x7d' :: rest4 => .ok ([(key, v)], rest4)
            | _ => .error ("Expecting \x27,\x27 delimiter")
        | _ => .error ("Expecting \x27:\x27 delimiter")
    | _ => .error ("Expecting property name enclosed in double quotes")

/-- Elements of a JSON array after `[` (first element about to start). -/
def parseJsonElems : Nat → List Char → Except String (List JVal × List Char)
  | 0, _ => .error ("Expecting value")
  | fuel + 1, l =>
    match parseJsonVal fuel l with
    | .error m => .error m
    | .ok (v, rest) =>
      match rest.dropWhile isJsonWs with
      | ',' :: rest2 =>
        match parseJsonElems fuel rest2 with
        | .error m => .error m
        | .ok (xs, rest3) => .ok (v :: xs, rest3)
      | ']' :: rest2 => .ok ([v], rest2)
      | _ => .error ("Expecting \x27,\x27 delimiter")

end

/-- Embedding of `json.loads`: parse one value and require only whitespace to follow. -/
def json_loads (s : String) : Except String JVal :=
  match parseJsonVal (s.length + 1) s.toList with
  | .error m => .error m
  | .ok (v, rest) =>
    if rest.dropWhile isJsonWs = [] then .ok v
    else .error ("Extra data")

/-! ## agents/lesson_generator.py — remote call with bounded retry -/

/-- Embedding of `settings.OPENAI_TIMEOUT` (default configuration value). -/
def OPENAI_TIMEOUT : Nat := 15

/-- Outcome of one raw request to the OpenAI client: a reply (message text
plus reported total token usage, `usage.total_tokens or 0`), or the message
`str(exc)` of the raised exception. -/
inductive CallOutcome where
  | reply (content : String) (totalTokens : Nat)
  | exc (msg : String)

/-- The remote capability: outcome of the `n`-th remote call (0-based,
counted across the whole generation). -/
def Oracle := Nat → CallOutcome

/-- One `client.chat.completions.create` attempt inside the `try` block:
an empty or whitespace-only reply raises `HTTPException(500)`, which the
enclosing `except` observes as an exception whose `str` is
`"500: OpenAI a retourné une réponse vide"`. -/
def attemptResult : CallOutcome → Except String (String × Nat)
  | .reply content total =>
    if content = "" ∨ pyStrip content = "" then
      .error ("500: OpenAI a retourné une réponse vide")
    else .ok (content, total)
  | .exc msg => .error msg

/-- The transient-error test of `_call_openai`:
`any(key in error_msg for key in ("timeout", "timed out", "rate limit", "429"))`
on the lower-cased exception message. -/
def isTransient (msg : String) : Bool :=
  let m := pyLower msg
  pyIn ("timeout") m || pyIn ("timed out") m || pyIn ("rate limit") m || pyIn ("429") m

/-- The error translation of `_call_openai` applied when an attempt fails
and no retry remains: the first matching category of the lower-cased
message wins. -/
def classifyError (msg : String) : Failure :=
  let m := pyLower msg
  if pyIn ("timeout") m || pyIn ("timed out") m then
    .http 504 ("Timeout OpenAI (" ++ toString OPENAI_TIMEOUT ++
      "s) - Réessayez dans quelques secondes")
  else if pyIn ("rate limit") m || pyIn ("429") m then
    .http 429 ("Limite de taux OpenAI atteinte - Réessayez dans 1 minute")
  else if pyIn ("quota") m || pyIn ("402") m then
    .http 402 ("Quota OpenAI épuisé - Vérifiez votre compte sur platform.openai.com")
  else if pyIn ("authentication") m || pyIn ("401") m then
    .http 401 ("Clé OpenAI invalide - Vérifiez OPENAI_API_KEY dans .env")
  else
    .http 500 ("Erreur OpenAI: " ++ pyTake 100 msg)

/-- Embedding of `_call_openai(max_tokens)`, the `for attempt in range(2)` loop unrolled:
attempt 0 retries once (after the fixed delay) only on a transient error;
the second failure, or a first non-transient failure, is translated by
`classifyError`.  `start` is the index of the next unused oracle outcome;
the second component records the `max_tokens` ceiling of every remote call
actually made. -/
def call_openai (o : Oracle) (start : Nat) (maxTokens : Nat) :
    Except Failure (String × Nat) × List Nat :=
  match attemptResult (o start) with
  | .ok r => (.ok r, [maxTokens])
  | .error m =>
    if isTransient m then
      match attemptResult (o (start + 1)) with
      | .ok r => (.ok r, [maxTokens, maxTokens])
      | .error m2 => (.error (classifyError m2), [maxTokens, maxTokens])
    else (.error (classifyError m), [maxTokens])

/-! ## agents/lesson_generator.py — parse, validate, construct -/

/-- Python `key in data` on a parsed JSON value: key membership for a dict,
element equality for a list, substring test for a string, `TypeError` for
the non-iterable values. -/
def pyInJVal (key : String) : JVal → Except Failure Bool
  | .obj kvs => .ok (kvs.any (fun kv => kv.1 = key))
  | .arr xs => .ok (xs.any (fun x =>
      match x with
      | .str s => s = key
      | _ => false))
  | .str s => .ok (pyIn key s)
  | _ => .error (.pyError ("TypeError") "argument of type is not iterable")

/-- Embedding of `required_fields` of `generate_lesson`. -/
def required_fields : List String := ["title", "objectives", "plan", "content"]

/-- The missing-fields comprehension
`[field for field in required_fields if field not in data]`; the first
`TypeError` raised by a membership test aborts it. -/
def compute_missing (data : JVal) : Except Failure (List String) :=
  required_fields.foldrM
    (fun field acc =>
      match pyInJVal field data with
      | .error f => .error f
      | .ok present => .ok (if present then acc else field :: acc))
    []

/-- The value a parsed JSON object holds under a key (`data[key]` /
`data.get(key)` on a dict): the last binding wins, `null` stands in for an
absent key's `None`. -/
def objValue (kvs : List (String × JVal)) (key : String) : JVal :=
  ((kvs.reverse.find? (fun kv => kv.1 = key)).map (·.2)).getD .null

/-- Embedding of `data.get(key)`: `AttributeError` on a non-dict; on a dict, the last
binding of the key (CPython keeps one overwritten slot per key; the last
parsed value wins). -/
def jvalGet (data : JVal) (key : String) : Except Failure JVal :=
  match data with
  | .obj kvs => .ok (objValue kvs key)
  | _ => .error (.pyError ("AttributeError") "object has no attribute get")

/-- The keys of `required_fields` absent from a parsed JSON object. -/
def missing_of (kvs : List (String × JVal)) : List String :=
  required_fields.filter (fun field => !kvs.any (fun kv => kv.1 = field))

/-- Embedding of `isinstance(v, list)`. -/
def jvalIsList : JVal → Bool
  | .arr _ => true
  | _ => false

/-- Embedding of `len` of a parsed JSON list. -/
def jvalLen : JVal → Nat
  | .arr xs => xs.length
  | .str s => s.length
  | .obj kvs => kvs.length
  | _ => 0

/-- Pydantic v2 coercion of a JSON value into a `str` field: only actual
strings are accepted. -/
def asPyStr : JVal → Option String
  | .str s => some s
  | _ => none

/-- Pydantic v2 coercion into a `List[str]` field. -/
def asPyStrList : JVal → Option (List String)
  | .arr xs => xs.mapM asPyStr
  | _ => none

/-- Embedding of `LessonContent(**data)`: pydantic construction, failing with the
HTTP 500 `ConstructionError` translation when a field has the wrong type
(extra keys are ignored by the default model config). -/
def construct_lesson_content (data : JVal) : Except Failure LessonContent :=
  let fields := do
    let title ← (jvalGet data ("title")).toOption >>= asPyStr
    let objectives ← (jvalGet data ("objectives")).toOption >>= asPyStrList
    let plan ← (jvalGet data ("plan")).toOption >>= asPyStrList
    let content ← (jvalGet data ("content")).toOption >>= asPyStr
    some (LessonContent.mk title objectives plan content)
  match fields with
  | some lc => .ok lc
  | none =>
    .error (.http 500 ("Erreur de construction LessonContent: " ++
      pyTake 100 ("validation error for LessonContent")))

/-- The body of the candidate loop of `generate_lesson` after a successful
JSON parse: required-field check, list-type checks, minimum-length checks,
then construction. -/
def validate_parsed (data : JVal) (totalTokens : Nat) :
    Except Failure (LessonContent × Nat) :=
  match compute_missing data with
  | .error f => .error f
  | .ok missing =>
    if missing ≠ [] then
      .error (.http 500 ("OpenAI n\x27a pas fourni les champs requis: " ++
        pyJoin (", ") missing))
    else
      match jvalGet data ("objectives") with
      | .error f => .error f
      | .ok objectivesV =>
        if !jvalIsList objectivesV then
          .error (.http 500 ("Le champ \x27objectives\x27 doit être une liste"))
        else
          match jvalGet data ("plan") with
          | .error f => .error f
          | .ok planV =>
            if !jvalIsList planV then
              .error (.http 500 ("Le champ \x27plan\x27 doit être une liste"))
            else if jvalLen objectivesV < 1 then
              .error (.http 500 ("Au moins un objectif est requis"))
            else if jvalLen planV < 2 then
              .error (.http 500 ("Au moins 2 sections sont requises dans le plan"))
            else
              match construct_lesson_content data with
              | .error f => .error f
              | .ok lc => .ok (lc, totalTokens)

/-- Embedding of `max_tokens_candidates`. -/
def max_tokens_candidates : List Nat := [200, 320]

/-- The exhausted-candidates failure: `str(last_error)[:100]` and the last
reply truncated to 200 characters. -/
def invalid_json_detail (errMsg content : String) : String :=
  "OpenAI a retourné un JSON invalide: " ++ pyTake 100 errMsg ++
    "\nContenu reçu: " ++ pyTake 200 content ++ "..."

/-- The `for max_tokens in max_tokens_candidates` loop of `generate_lesson`:
call the remote capability, parse, validate; a parse failure moves to the
next ceiling, remembering the error and the offending reply; exhaustion
raises the invalid-JSON failure (or the no-explicit-error failure when the
candidate list was empty).  Returns the result together with the ceilings of
all remote calls made. -/
def generate_loop (o : Oracle) (start : Nat) (lastErr : Option (String × String)) :
    List Nat → Except Failure (LessonContent × Nat) × List Nat
  | [] =>
    match lastErr with
    | some (e, content) => (.error (.http 500 (invalid_json_detail e content)), [])
    | none => (.error (.http 500 ("Échec de parsing JSON sans erreur explicite")), [])
  | maxTokens :: rest =>
    match call_openai o start maxTokens with
    | (.error f, trace) => (.error f, trace)
    | (.ok (content, total), trace) =>
      match json_loads content with
      | .error e =>
        let next := generate_loop o (start + trace.length) (some (e, content)) rest
        (next.1, trace ++ next.2)
      | .ok data => (validate_parsed data total, trace)

/-- Embedding of `generate_lesson`: build the prompt, validate the token budget strictly
before any remote call, then run the candidate loop.  The second component
lists the `max_tokens` ceiling of every remote call made. -/
def generate_lesson (o : Oracle) (request : LessonRequest) :
    Except Failure (LessonContent × Nat) × List Nat :=
  let prompt := build_prompt request
  match validate_prompt_budget prompt request.subject with
  | some f => (.error f, [])
  | none => generate_loop o 0 none max_tokens_candidates

/-! ## agents/formatter.py -/

/-- The key/value pairs of the readability summary dict, in its insertion
order, with each value rendered as Python `str()` renders it inside the
f-string `f"- {key}: {value}"`. -/
def summaryPairs (r : RSummary) : List (String × String) :=
  [("flesch_kincaid_score", fmt1 r.flesch_kincaid_score),
   ("readability_level", r.readability_level),
   ("word_count", toString r.word_count),
   ("is_appropriate_for_audience", pyBoolStr r.is_appropriate_for_audience),
   ("audience_target", r.audience_target),
   ("quality_message", r.quality_message)]

/-- The line list assembled by `_build_markdown` (joined with newlines). -/
def build_markdown_lines (content : LessonContent) (readability : Option RSummary) :
    List String :=
  ["# " ++ content.title, ""] ++
  ["## Objectifs d\x27apprentissage"] ++
  content.objectives.map (fun obj => "- " ++ obj) ++
  [""] ++
  ["## Plan de la leçon"] ++
  (List.enumFrom 1 content.plan).map (fun p => toString p.1 ++ ". " ++ p.2) ++
  [""] ++
  ["## Contenu", content.content, ""] ++
  (match readability with
   | none => []
   | some r =>
     ["## Métriques de lisibilité"] ++
     (summaryPairs r).map (fun kv => "- " ++ kv.1 ++ ": " ++ kv.2) ++
     [""])

/-- Embedding of `_build_markdown`. -/
def build_markdown (content : LessonContent) (readability : Option RSummary) : String :=
  pyJoin ("\n") (build_markdown_lines content readability)

/-- Embedding of `LessonFormatted`. -/
structure LessonFormatted where
  title : String
  markdown : String
  readability : RSummary
deriving DecidableEq, Repr

/-- Embedding of `format_lesson`: render the base document, score it for the audience,
then re-render with the metrics section appended.  The `ValueError` of an
unsupported audience propagates. -/
def format_lesson (content : LessonContent) (audience : String) :
    Except String LessonFormatted :=
  let markdown_base := build_markdown content none
  match validate_readability_for_audience markdown_base audience with
  | .error e => .error e
  | .ok score =>
    let readability := get_readability_summary score
    let markdown := build_markdown content (some readability)
    .ok ⟨content.title, markdown, readability⟩

/-! ## api/services/lessons.py -/

/-- JSON string escaping as performed by `json.dumps(..., ensure_ascii=False)`. -/
def jsonEscapeChar (c : Char) : List Char :=
  if c = '"' then ['\\', '"']
  else if c = '\\' then ['\\', '\\']
  else if c = '\n' then ['\\', 'n']
  else if c = '\t' then ['\\', 't']
  else if c = '\x0d' then ['\\', 'r']
  else if c = '\x08' then ['\\', 'b']
  else if c = '\x0c' then ['\\', 'f']
  else if c.toNat < 32 then
    let hexDigit := fun (n : Nat) =>
      if n < 10 then Char.ofNat ('0'.toNat + n) else Char.ofNat ('a'.toNat + n - 10)
    ['\\', 'u', '0', '0', hexDigit (c.toNat / 16), hexDigit (c.toNat % 16)]
  else [c]

/-- A JSON string literal for `json.dumps(..., ensure_ascii=False)`. -/
def jsonQuote (s : String) : String :=
  "\"" ++ String.mk (s.toList.flatMap jsonEscapeChar) ++ "\""

/-- Python string comparison: lexicographic on code points. -/
def pyStrLe (s t : String) : Bool :=
  lexLe s.toList t.toList
where
  lexLe : List Char → List Char → Bool
    | [], _ => true
    | _ :: _, [] => false
    | a :: as, b :: bs =>
      if a = b then lexLe as bs else decide (a.toNat < b.toNat)

/-- Stable insertion of a key/value pair into a key-sorted list (used to
embed `sort_keys=True`). -/
def insertByKey (kv : String × String) : List (String × String) → List (String × String)
  | [] => [kv]
  | kv' :: rest =>
    if pyStrLe kv.1 kv'.1 then kv :: kv' :: rest else kv' :: insertByKey kv rest

/-- Stable insertion sort by key. -/
def sortByKey : List (String × String) → List (String × String)
  | [] => []
  | kv :: rest => insertByKey kv (sortByKey rest)

/-- Embedding of `json.dumps(dict, sort_keys=True, ensure_ascii=False)` for a dict of
string values, with the default `", "` / `": "` separators. -/
def jsonDumpsSorted (kvs : List (String × String)) : String :=
  "\x7b" ++
    pyJoin (", ")
      ((sortByKey kvs).map (fun kv => jsonQuote kv.1 ++ ": " ++ jsonQuote kv.2)) ++
  "\x7d"

/-- The dict serialized by `_compute_request_hash`: each field stripped and
lower-cased. -/
def hash_payload (request : LessonRequest) : List (String × String) :=
  [("subject", pyLower (pyStrip request.subject)),
   ("audience", pyLower (pyStrip request.audience.label)),
   ("duration", pyLower (pyStrip request.duration.label))]

/-- The exact byte string fed to SHA-256 by `_compute_request_hash`. -/
def compute_request_hash_input (request : LessonRequest) : String :=
  jsonDumpsSorted (hash_payload request)

/-- Embedding of `_compute_request_hash`, for an arbitrary digest function `H`
(instantiated with SHA-256 hex digest in the sources; every property proved
below holds for all `H`). -/
def compute_request_hash (H : String → String) (request : LessonRequest) : String :=
  H (compute_request_hash_input request)

/-- A `lessons` table row. -/
structure LessonRow where
  id : String
  request_id : String
  title : String
  content_md : String
  objectives : List String
  plan : List String
deriving DecidableEq, Repr

/-- A `requests` table row together with its related lessons. -/
structure RequestRow where
  id : String
  subject : String
  audience : String
  duration : String
  input_hash : String
  lessons : List LessonRow
deriving DecidableEq, Repr

/-- The database: the `requests` table in insertion order
(`query(Request).filter(...).first()` returns the first match in this
order). -/
def findByHash (db : List RequestRow) (h : String) : Option RequestRow :=
  db.find? (fun row => row.input_hash = h)

/-- The result dictionary of `create_lesson`. -/
structure CreateResult where
  lesson_id : String
  title : String
  from_cache : Bool
  quality : RSummary
  tokens_used : Nat
deriving DecidableEq, Repr

/-- The cache-miss path of `create_lesson` (generation, formatting,
readability validation, atomic persistence of a new Request+Lesson pair
appended to the table).  `reqId`/`lessonId` are the fresh `uuid4` values. -/
def create_lesson_miss (o : Oracle) (reqId lessonId : String)
    (db : List RequestRow) (request : LessonRequest) (h : String) :
    Except Failure (CreateResult × List RequestRow) × List Nat :=
  match generate_lesson o request with
  | (.error f, trace) => (.error f, trace)
  | (.ok (lesson_content, tokens_used), trace) =>
    match format_lesson lesson_content request.audience.label with
    | .error e => (.error (.pyError ("ValueError") e), trace)
    | .ok formatted =>
      match validate_readability_for_audience formatted.markdown request.audience.label with
      | .error e => (.error (.pyError ("ValueError") e), trace)
      | .ok readability_score =>
        let readability_summary := get_readability_summary readability_score
        let db_lesson : LessonRow :=
          ⟨lessonId, reqId, lesson_content.title, formatted.markdown,
           lesson_content.objectives, lesson_content.plan⟩
        let db_request : RequestRow :=
          ⟨reqId, request.subject, request.audience.label,
           request.duration.label, h, [db_lesson]⟩
        (.ok (⟨lessonId, lesson_content.title, false, readability_summary, tokens_used⟩,
              db ++ [db_request]), trace)

/-- Embedding of `create_lesson`: compute the idempotency hash, return the cached lesson
(with freshly recomputed readability, `from_cache=True` and zero token
usage) when the first request row carrying this hash has at least one
lesson, otherwise run the full generation pipeline and persist.  The last
component lists the remote calls made (their `max_tokens` ceilings). -/
def create_lesson (H : String → String) (o : Oracle) (reqId lessonId : String)
    (db : List RequestRow) (request : LessonRequest) :
    Except Failure (CreateResult × List RequestRow) × List Nat :=
  let request_hash := compute_request_hash H request
  match findByHash db request_hash with
  | some existing =>
    match existing.lessons with
    | lesson0 :: _ =>
      match validate_readability_for_audience lesson0.content_md request.audience.label with
      | .error e => (.error (.pyError ("ValueError") e), [])
      | .ok cached_score =>
        let cached_summary := get_readability_summary cached_score
        (.ok (⟨lesson0.id, lesson0.title, true, cached_summary, 0⟩, db), [])
    | [] => create_lesson_miss o reqId lessonId db request request_hash
  | none => create_lesson_miss o reqId lessonId db request request_hash

/-! ## Definitions written from the specification's wording

These definitions follow the spec text (not the sources) and are compared
against the source-derived definitions in the claim theorems below. -/

/-- Spec wording of §4.1: collapse whitespace and trim, divide the character
count by 4 (an integer count of 4-character groups), multiply by the exact
safety margin 1.2 and truncate to an integer; empty or whitespace-only text
estimates to 0. -/
def spec_estimate_tokens (text : String) : Nat :=
  if pyStrip text = "" then 0
  else
    Nat.floor
      ((((collapseWsList (pyStripList text.toList)).length / 4 : Nat) : ℚ) * (1.2 : ℚ))

/-- Spec wording of §3 `RequestHash`: the JSON serialization, with keys in
sorted order (`audience` < `duration` < `subject`), of the lower-cased
normalized triple. -/
def spec_hash_serialization (subject audience duration : String) : String :=
  "\x7b" ++ jsonQuote ("audience") ++ ": " ++ jsonQuote audience ++
    ", " ++ jsonQuote ("duration") ++ ": " ++ jsonQuote duration ++
    ", " ++ jsonQuote ("subject") ++ ": " ++ jsonQuote subject ++ "\x7d"

/-- Two raw subject strings differ only in letter case and/or leading,
trailing or internal whitespace: after splitting on whitespace runs and
lower-casing each word, the word sequences agree. -/
def same_up_to_case_and_ws (s1 s2 : String) : Prop :=
  (pySplit s1).map pyLower = (pySplit s2).map pyLower

/-- Spec wording of §4.4: the trailing readability-metrics section appended
to the base document — a heading line followed by one `- key: value` line
per summary pair, each line preceded by a newline. -/
def spec_metrics_section (pairs : List (String × String)) : String :=
  "\n## Métriques de lisibilité" ++
    String.join (pairs.map (fun kv => "\n- " ++ kv.1 ++ ": " ++ kv.2)) ++ "\n"

/-- The status code the spec §4.2 assigns to a remote-error message (504
timeout / 429 rate limit / 402 quota / 401 auth / 500 otherwise, first
match wins). -/
def spec_error_status (msg : String) : Nat :=
  let m := pyLower msg
  if pyIn ("timeout") m || pyIn ("timed out") m then 504
  else if pyIn ("rate limit") m || pyIn ("429") m then 429
  else if pyIn ("quota") m || pyIn ("402") m then 402
  else if pyIn ("authentication") m || pyIn ("401") m then 401
  else 500

/-! ## Shared lemmas -/

theorem string_ext {s t : String} (h : s.data = t.data) : s = t := by
  cases s
  cases t
  exact congrArg String.mk h

theorem dropWhile_cons_false {p : Char → Bool} {c : Char} (l : List Char)
    (h : p c = false) : List.dropWhile p (c :: l) = c :: l := by
  simp [List.dropWhile, h]

theorem pyStripList_eq_self {l : List Char}
    (h1 : l.dropWhile isPyWs = l) (h2 : l.reverse.dropWhile isPyWs = l.reverse) :
    pyStripList l = l := by
  unfold pyStripList
  rw [h1, h2, List.reverse_reverse]

/-- Splitting `squeezeRuns` (and its in-run state) at a non-`p` character:
the scanner state resets there, so the output splits accordingly. -/
theorem squeeze_split (p : Char → Bool) (rep c : Char) (hc : p c = false)
    (y : List Char) : ∀ x : List Char,
    squeezeRuns p rep (x ++ c :: y) = squeezeRuns p rep (x ++ [c]) ++ squeezeRuns p rep y
  ∧ squeezeRunsGap p rep (x ++ c :: y) = squeezeRunsGap p rep (x ++ [c]) ++ squeezeRuns p rep y := by
  intro x
  induction x with
  | nil => simp [squeezeRuns, squeezeRunsGap, hc]
  | cons a x ih =>
    by_cases ha : p a <;>
      simp [squeezeRuns, squeezeRunsGap, ha, ih.1, ih.2]

/-- The scanner `squeezeRuns` passes a block of non-`p` characters through unchanged. -/
theorem squeezeRuns_replicate (p : Char → Bool) (rep c : Char) (hc : p c = false)
    (z : List Char) : ∀ m : Nat,
    squeezeRuns p rep (List.replicate m c ++ z) =
      List.replicate m c ++ squeezeRuns p rep z := by
  intro m
  induction m with
  | zero => simp
  | succ m ih => simp [List.replicate_succ, squeezeRuns, hc, ih]

/-- Fragments produced by `runsNot` (in any of its three states) are
non-empty and free of delimiter characters. -/
theorem runsNot_props (p : Char → Bool) : ∀ l : List Char,
    (∀ w ∈ runsNot p l, w ≠ [] ∧ ∀ c ∈ w, p c = false)
  ∧ (∀ c ∈ runsNotHead p l, p c = false)
  ∧ (∀ w ∈ runsNotTail p l, w ≠ [] ∧ ∀ c ∈ w, p c = false) := by
  intro l
  induction l with
  | nil => simp [runsNot, runsNotHead, runsNotTail]
  | cons a l ih =>
    obtain ⟨ih1, ih2, ih3⟩ := ih
    by_cases ha : p a
    · refine ⟨?_, ?_, ?_⟩
      · intro w hw
        simp only [runsNot, ha, if_true] at hw
        exact ih1 w hw
      · intro c hc
        simp only [runsNotHead, ha, if_true] at hc
        simp at hc
      · intro w hw
        simp only [runsNotTail, ha, if_true] at hw
        exact ih1 w hw
    · have ha' : p a = false := by simpa using ha
      refine ⟨?_, ?_, ?_⟩
      · intro w hw
        simp only [runsNot, ha', Bool.false_eq_true, if_false, List.mem_cons] at hw
        rcases hw with hw | hw
        · subst hw
          refine ⟨by simp, ?_⟩
          intro c hc
          rw [List.mem_cons] at hc
          rcases hc with hc | hc
          · simpa [hc] using ha'
          · exact ih2 c hc
        · exact ih3 w hw
      · intro c hc
        simp only [runsNotHead, ha', Bool.false_eq_true, if_false, List.mem_cons] at hc
        rcases hc with hc | hc
        · simpa [hc] using ha'
        · exact ih2 c hc
      · intro w hw
        simp only [runsNotTail, ha', Bool.false_eq_true, if_false] at hw
        exact ih3 w hw

/-- Splitting `pyJoin` over a concatenation of two non-empty lists of parts. -/
theorem pyJoin_append (sep : String) : ∀ a b : List String, a ≠ [] → b ≠ [] →
    pyJoin sep (a ++ b) = pyJoin sep a ++ sep ++ pyJoin sep b := by
  intro a
  induction a with
  | nil => intro b h _; exact absurd rfl h
  | cons x a ih =>
    intro b _ hb
    cases a with
    | nil =>
      cases b with
      | nil => exact absurd rfl hb
      | cons y b => simp [pyJoin]
    | cons x' a' =>
      have step := ih b (by simp) hb
      have h1 : pyJoin sep ((x :: x' :: a') ++ b) =
          x ++ sep ++ pyJoin sep ((x' :: a') ++ b) := rfl
      have h2 : pyJoin sep (x :: x' :: a') = x ++ sep ++ pyJoin sep (x' :: a') := rfl
      rw [h1, step, h2]
      simp [String.append_assoc]

/-- Lower-casing distributes over string concatenation. -/
theorem pyLower_append (a b : String) : pyLower (a ++ b) = pyLower a ++ pyLower b := by
  apply string_ext
  simp [pyLower, String.data_append]

/-- Lower-casing distributes over `pyJoin " "` (the separator is fixed by
lower-casing). -/
theorem pyLower_join : ∀ ws : List String,
    pyLower (pyJoin (" ") ws) = pyJoin (" ") (ws.map pyLower) := by
  intro ws
  induction ws with
  | nil => rfl
  | cons w ws ih =>
    cases ws with
    | nil => rfl
    | cons w' ws' =>
      simp only [pyJoin, List.map_cons] at ih ⊢
      rw [pyLower_append, pyLower_append, ih]
      rfl

theorem length_dropWhile_le (p : Char → Bool) : ∀ l : List Char,
    (l.dropWhile p).length ≤ l.length := by
  intro l
  induction l with
  | nil => simp
  | cons c l ih =>
    by_cases h : p c
    · simp only [List.dropWhile, h, if_true]
      exact Nat.le_succ_of_le ih
    · simp [List.dropWhile, h]

theorem dropWhile_append_of_self {p : Char → Bool} {x : List Char} (y : List Char)
    (hx : x ≠ []) (hself : x.dropWhile p = x) :
    List.dropWhile p (x ++ y) = x ++ y := by
  cases x with
  | nil => exact absurd rfl hx
  | cons c x' =>
    have hc : p c = false := by
      by_cases h : p c
      · exfalso
        have hdrop := hself
        simp only [List.dropWhile, h, if_true] at hdrop
        have hlen := congrArg List.length hdrop
        have hle := length_dropWhile_le p x'
        simp at hlen
        omega
      · simpa using h
    simpa using dropWhile_cons_false (x' ++ y) hc

/-- A string all of whose characters are non-whitespace is unchanged by
`dropWhile isPyWs`. -/
theorem dropWhile_eq_self_of_clean {l : List Char}
    (h : ∀ c ∈ l, isPyWs c = false) : l.dropWhile isPyWs = l := by
  cases l with
  | nil => rfl
  | cons c l' => exact dropWhile_cons_false l' (h c (by simp))

theorem pyJoin_toList_ne_nil (w : String) (ws : List String) (hw : w.toList ≠ []) :
    (pyJoin " " (w :: ws)).toList ≠ [] := by
  cases ws with
  | nil => exact hw
  | cons w' ws' =>
    show (w ++ " " ++ pyJoin " " (w' :: ws')).toList ≠ []
    simp [String.toList, String.data_append]

/-- Joining non-empty whitespace-free fragments with single spaces yields a
string unchanged by `strip` (no leading or trailing whitespace). -/
theorem join_strip_eq : ∀ ws : List String,
    (∀ w ∈ ws, w.toList ≠ [] ∧ ∀ c ∈ w.toList, isPyWs c = false) →
    pyStripList (pyJoin " " ws).toList = (pyJoin " " ws).toList := by
  have hrev : ∀ ws : List String,
      (∀ w ∈ ws, w.toList ≠ [] ∧ ∀ c ∈ w.toList, isPyWs c = false) →
      (pyJoin " " ws).toList.reverse.dropWhile isPyWs = (pyJoin " " ws).toList.reverse := by
    intro ws
    induction ws with
    | nil => intro _; rfl
    | cons w ws ih =>
      intro h
      cases ws with
      | nil =>
        apply dropWhile_eq_self_of_clean
        intro c hc
        exact (h w (by simp)).2 c (by simpa using hc)
      | cons w' ws' =>
        have hjoin : pyJoin " " (w :: w' :: ws') = w ++ " " ++ pyJoin " " (w' :: ws') := rfl
        have hdata : (pyJoin " " (w :: w' :: ws')).toList.reverse =
            (pyJoin " " (w' :: ws')).toList.reverse ++ (' ' :: w.toList.reverse) := by
          rw [hjoin]
          simp [String.toList, String.data_append]
        rw [hdata]
        have htail := ih (fun u hu => h u (by simp [hu]))
        apply dropWhile_append_of_self
        · have hw' := (h w' (by simp)).1
          have hne := pyJoin_toList_ne_nil w' ws' hw'
          simpa using hne
        · exact htail
  intro ws h
  apply pyStripList_eq_self
  · cases ws with
    | nil => rfl
    | cons w ws' =>
      have hw := h w (by simp)
      cases ws' with
      | nil =>
        exact dropWhile_eq_self_of_clean hw.2
      | cons w' ws'' =>
        have : pyJoin " " (w :: w' :: ws'') = w ++ (" " ++ pyJoin (" ") (w' :: ws'')) := by
          simp [pyJoin, String.append_assoc]
        rw [this]
        have hdata : (w ++ (" " ++ pyJoin " " (w' :: ws''))).toList =
            w.toList ++ (" " ++ pyJoin (" ") (w' :: ws'')).toList := by
          simp [String.toList, String.data_append]
        rw [hdata]
        exact dropWhile_append_of_self _ hw.1 (dropWhile_eq_self_of_clean hw.2)
  · exact hrev ws h

/-! ## Claim C9 — token estimation formula -/

theorem nat_mul_six_div_five_eq_floor (n : Nat) :
    n * 6 / 5 = Nat.floor ((n : ℚ) * (1.2 : ℚ)) := by
  have h12 : (1.2 : ℚ) = 6 / 5 := by norm_num
  rw [h12, mul_div_assoc']
  rw [show (5 : ℚ) = ((5 : ℕ) : ℚ) by norm_num]
  rw [show ((n : ℚ) * 6) = ((n * 6 : ℕ) : ℚ) by push_cast; ring]
  rw [Nat.floor_div_nat]
  norm_cast

/-- C9: for every text, the estimated token count equals the result of
collapsing whitespace runs, trimming, dividing the character count by 4,
multiplying by the 1.2 safety margin and truncating to an integer; empty or
whitespace-only text estimates to 0. -/
theorem c9_token_estimation_formula (text : String) :
    estimate_tokens text = spec_estimate_tokens text ∧
    (pyStrip text = "" → estimate_tokens text = 0) := by
  constructor
  · unfold estimate_tokens spec_estimate_tokens
    by_cases h : pyStrip text = ""
    · simp [h]
    · simp only [h, if_false]
      exact nat_mul_six_div_five_eq_floor _
  · intro h
    simp [estimate_tokens, h]

/-- C9 witness: the formula evaluated on concrete texts ("un texte avec
des    espaces" collapses to 25 characters, `25 / 4 = 6` groups,
`⌊6 × 1.2⌋ = 7` tokens; whitespace-only text estimates to 0). -/
theorem c9_token_estimation_formula_witness :
    (estimate_tokens ("un texte avec des    espaces") =
        spec_estimate_tokens ("un texte avec des    espaces") ∧
      (pyStrip ("un texte avec des    espaces") = "" →
        estimate_tokens ("un texte avec des    espaces") = 0)) ∧
    estimate_tokens ("un texte avec des    espaces") = 7 ∧
    estimate_tokens ("   ") = 0 := by
  refine ⟨c9_token_estimation_formula _, by decide, ?_⟩
  have h := (c9_token_estimation_formula ("   ")).2 (by decide)
  exact h

/-! ## Claim C2 — hash invariance -/

theorem sortByKey_payload (x y z : String) :
    sortByKey [("subject", x), ("audience", y), ("duration", z)] =
      [("audience", y), ("duration", z), ("subject", x)] := by
  show insertByKey ("subject", x)
      (insertByKey ("audience", y) (insertByKey ("duration", z) (sortByKey []))) = _
  have e1 : insertByKey ("audience", y) (insertByKey ("duration", z) (sortByKey [])) =
      [("audience", y), ("duration", z)] := by
    show insertByKey ("audience", y) [("duration", z)] = _
    unfold insertByKey
    dsimp only
    rw [if_pos (show pyStrLe ("audience") "duration" = true by decide)]
  rw [e1]
  unfold insertByKey
  dsimp only
  rw [if_neg (show ¬pyStrLe ("subject") "audience" = true by decide)]
  have e2 : insertByKey ("subject", x) [("duration", z)] = [("duration", z), ("subject", x)] := by
    unfold insertByKey
    dsimp only
    rw [if_neg (show ¬pyStrLe ("subject") "duration" = true by decide)]
    rfl
  rw [e2]

theorem dumps_payload_eq_spec (x y z : String) :
    jsonDumpsSorted [("subject", x), ("audience", y), ("duration", z)] =
      spec_hash_serialization x y z := by
  unfold jsonDumpsSorted spec_hash_serialization
  rw [sortByKey_payload]
  apply string_ext
  simp [pyJoin, String.data_append]

/-- The subject produced by the `normalize_subject` validator is unchanged
by `strip` and lower-cases to the joined lower-cased words of the raw
input. -/
theorem normalized_subject_canonical (s : String) :
    pyStrip (pyJoin (" ") (pySplit s)) = pyJoin (" ") (pySplit s) ∧
    pyLower (pyJoin (" ") (pySplit s)) = pyJoin (" ") ((pySplit s).map pyLower) := by
  constructor
  · have hfrag : ∀ w ∈ pySplit s, w.toList ≠ [] ∧ ∀ c ∈ w.toList, isPyWs c = false := by
      intro w hw
      unfold pySplit at hw
      rw [List.mem_map] at hw
      obtain ⟨frag, hfrag, hmk⟩ := hw
      have hprops := (runsNot_props isPyWs s.toList).1 frag hfrag
      subst hmk
      exact ⟨by simpa using hprops.1, hprops.2⟩
    unfold pyStrip
    rw [join_strip_eq (pySplit s) hfrag]
    rfl
  · exact pyLower_join (pySplit s)

/-- Extract the normalized subject from a successful pydantic
construction. -/
theorem mk_lesson_request_subject {s : String} {a : Audience} {d : Duration}
    {r : LessonRequest} (h : mk_lesson_request s a d = .ok r) :
    r = ⟨pyJoin (" ") (pySplit s), a, d⟩ := by
  unfold mk_lesson_request at h
  by_cases hlen : (s.length < 2 ∨ s.length > 200)
  · rw [if_pos hlen] at h
    exact absurd h (by simp)
  · rw [if_neg hlen] at h
    simp only [normalize_subject] at h
    by_cases hlen2 : (pyJoin (" ") (pySplit s)).length < 2
    · rw [if_pos hlen2] at h
      exact absurd h (by simp [Except.map])
    · rw [if_neg hlen2] at h
      simpa [Except.map] using h.symm

/-- C2: two validated requests whose raw subjects differ only in letter
case and whitespace (same audience, same duration) get the same request
hash under every digest function; and the hash input is exactly the
sorted-key JSON serialization of the lower-cased stripped triple. -/
theorem c2_hash_invariance (s1 s2 : String) (a : Audience) (d : Duration)
    (r1 r2 : LessonRequest)
    (h1 : mk_lesson_request s1 a d = .ok r1)
    (h2 : mk_lesson_request s2 a d = .ok r2)
    (heq : same_up_to_case_and_ws s1 s2) :
    (∀ H : String → String, compute_request_hash H r1 = compute_request_hash H r2) ∧
    (∀ (H : String → String) (r : LessonRequest), compute_request_hash H r =
      H (spec_hash_serialization (pyLower (pyStrip r.subject))
          (pyLower (pyStrip r.audience.label)) (pyLower (pyStrip r.duration.label)))) := by
  constructor
  · intro H
    obtain he1 := mk_lesson_request_subject h1
    obtain he2 := mk_lesson_request_subject h2
    subst he1
    subst he2
    have hsub : pyLower (pyStrip (pyJoin (" ") (pySplit s1)))
        = pyLower (pyStrip (pyJoin (" ") (pySplit s2))) := by
      rw [(normalized_subject_canonical s1).1, (normalized_subject_canonical s2).1,
          (normalized_subject_canonical s1).2, (normalized_subject_canonical s2).2]
      exact congrArg (pyJoin (" ")) heq
    unfold compute_request_hash compute_request_hash_input
    apply congrArg H
    apply congrArg jsonDumpsSorted
    unfold hash_payload
    dsimp only
    rw [hsub]
  · intro H r
    unfold compute_request_hash compute_request_hash_input hash_payload
    exact congrArg H (dumps_payload_eq_spec _ _ _)

/-- C2 witness: `"  Théorème   de PYTHAGORE "` and `"théorème de Pythagore"`
are the same subject up to case and whitespace and produce identical hash
inputs. -/
theorem c2_hash_invariance_witness :
    (∀ H : String → String,
      compute_request_hash H ⟨"Théorème de PYTHAGORE", .lyceen, .medium⟩ =
      compute_request_hash H ⟨"théorème de Pythagore", .lyceen, .medium⟩) ∧
    compute_request_hash_input ⟨"Théorème de PYTHAGORE", .lyceen, .medium⟩ =
      compute_request_hash_input ⟨"théorème de Pythagore", .lyceen, .medium⟩ := by
  have h1 : mk_lesson_request ("  Théorème   de PYTHAGORE ") .lyceen .medium =
      .ok ⟨"Théorème de PYTHAGORE", .lyceen, .medium⟩ := rfl
  have h2 : mk_lesson_request ("théorème de Pythagore") .lyceen .medium =
      .ok ⟨"théorème de Pythagore", .lyceen, .medium⟩ := rfl
  have heq : same_up_to_case_and_ws ("  Théorème   de PYTHAGORE ") "théorème de Pythagore" := by
    unfold same_up_to_case_and_ws
    decide
  have hmain := (c2_hash_invariance _ _ _ _ _ _ h1 h2 heq).1
  exact ⟨hmain, hmain id⟩

/-! ## Claim C3 — transient retry in `_call_openai` -/

theorem classify_status_eq_spec (m : String) :
    (classifyError m).status = spec_error_status m := by
  unfold classifyError spec_error_status
  dsimp only
  split_ifs <;> rfl

theorem attemptResult_reply_ok {c : String} {t : Nat} (hc : pyStrip c ≠ "") :
    attemptResult (.reply c t) = .ok (c, t) := by
  unfold attemptResult
  dsimp only
  rw [if_neg]
  intro h
  rcases h with h | h
  · exact hc (by rw [h]; rfl)
  · exact hc h

/-- C3: a transient first failure followed by a success yields the reply
after exactly 2 remote calls; a transient first failure followed by any
second failure yields the translated typed failure after exactly 2 calls,
with status 504 / 429 / 402 / 401 / 500 according to the message; a
non-transient first failure is translated immediately after 1 call. -/
theorem c3_transient_retry (o : Oracle) (mt : Nat) :
    (∀ m c t, o 0 = .exc m → isTransient m = true → o 1 = .reply c t →
      pyStrip c ≠ "" → call_openai o 0 mt = (.ok (c, t), [mt, mt])) ∧
    (∀ m m2, o 0 = .exc m → isTransient m = true → o 1 = .exc m2 →
      call_openai o 0 mt = (.error (classifyError m2), [mt, mt]) ∧
      (classifyError m2).status = spec_error_status m2) ∧
    (∀ m, o 0 = .exc m → isTransient m = false →
      call_openai o 0 mt = (.error (classifyError m), [mt]) ∧
      (classifyError m).status = spec_error_status m) := by
  refine ⟨?_, ?_, ?_⟩
  · intro m c t h0 htr h1 hc
    unfold call_openai
    rw [h0]
    show (match (Except.error m : Except String (String × Nat)) with
      | .ok r => (Except.ok r, [mt])
      | .error m => _) = _
    dsimp only
    rw [htr, if_pos rfl, h1, attemptResult_reply_ok hc]
  · intro m m2 h0 htr h1
    refine ⟨?_, classify_status_eq_spec m2⟩
    unfold call_openai
    rw [h0]
    dsimp only [attemptResult]
    rw [htr, if_pos rfl, h1]
  · intro m h0 htr
    refine ⟨?_, classify_status_eq_spec m⟩
    unfold call_openai
    rw [h0]
    dsimp only [attemptResult]
    rw [htr]
    rfl

/-- C3 witness: a rate-limited first call followed by a success succeeds
after exactly 2 calls; a capability that always times out fails with
status 504 after exactly 2 calls; an authentication failure on the first
call fails with status 401 after exactly 1 call. -/
theorem c3_transient_retry_witness :
    (call_openai
        (fun n => if n = 0 then .exc ("Rate limit exceeded (429)") else .reply ("ok") 7)
        0 200 = (.ok ("ok", 7), [200, 200])) ∧
    (call_openai (fun _ => .exc ("Request timed out")) 0 200 =
        (.error (classifyError ("Request timed out")), [200, 200]) ∧
      (classifyError ("Request timed out")).status = spec_error_status ("Request timed out")) ∧
    spec_error_status ("Request timed out") = 504 ∧
    (call_openai (fun _ => .exc ("Incorrect authentication credentials (401)")) 0 200 =
        (.error (classifyError ("Incorrect authentication credentials (401)")), [200]) ∧
      (classifyError ("Incorrect authentication credentials (401)")).status =
        spec_error_status ("Incorrect authentication credentials (401)")) ∧
    spec_error_status ("Incorrect authentication credentials (401)") = 401 := by
  refine ⟨?_, ?_, by decide, ?_, by decide⟩
  · exact (c3_transient_retry
      (fun n => if n = 0 then .exc ("Rate limit exceeded (429)") else .reply ("ok") 7) 200).1
      ("Rate limit exceeded (429)") "ok" 7 rfl (by decide) rfl (by decide)
  · exact (c3_transient_retry (fun _ => .exc ("Request timed out")) 200).2.1
      ("Request timed out") "Request timed out" rfl (by decide) rfl
  · exact (c3_transient_retry
      (fun _ => .exc ("Incorrect authentication credentials (401)")) 200).2.2
      ("Incorrect authentication credentials (401)") rfl (by decide)

/-! ## Claim C7 — readability score bounds (corrected) -/

theorem clamp0100_bounds (q : ℚ) : 0 ≤ clamp0100 q ∧ clamp0100 q ≤ 100 := by
  unfold clamp0100
  dsimp only
  split_ifs <;> constructor <;> linarith

theorem parse_stats_zero (text : String) :
    ((parse_text_stats text).1 = 0 ∨ (parse_text_stats text).2.1 = 0) →
    (parse_text_stats text).2.2.1 = 0 ∧ (parse_text_stats text).2.2.2 = 0 := by
  unfold parse_text_stats
  dsimp only
  split_ifs with h1 h2 h3 h4 <;> intro h <;> simp_all

theorem calculate_fk_eq (text : String) :
    calculate_flesch_kincaid_french text =
      if (parse_text_stats text).1 = 0 ∨ (parse_text_stats text).2.1 = 0 then 0
      else clamp0100
        (fkFormula (parse_text_stats text).2.2.1 (parse_text_stats text).2.2.2) := rfl

theorem fkLookup_label (a : Audience) : ∃ band, fkLookup a.label = some band := by
  cases a <;> exact ⟨_, rfl⟩

/-- C7 counterexample to the claim as stated: `"1234. 5678."` yields zero
words (no letter runs) yet its sentence count is 2, not 0 — the code zeroes
the score and the averages on a zero word count but keeps the non-zero
sentence count. -/
theorem c7_counterexample :
    (validate_readability_for_audience ("1234. 5678.") "adulte").toOption.map
      (fun s => (s.word_count, s.sentence_count, s.flesch_kincaid,
        s.avg_words_per_sentence, s.avg_syllables_per_word)) =
      some (0, 2, 0, 0, 0) := by decide

/-- C7 (amended): for every text and supported audience, scoring never
raises; the score lies in `[0, 100]`; with non-zero word and sentence
counts it equals the clamped linear formula; with a zero word or sentence
count the score and both averages are 0 (the counts themselves need not
both be 0); and on the empty string every numeric field is 0. -/
theorem c7_readability_bounds (text : String) (a : Audience) :
    (∃ s, validate_readability_for_audience text a.label = .ok s) ∧
    (∀ s, validate_readability_for_audience text a.label = .ok s →
      (0 ≤ s.flesch_kincaid ∧ s.flesch_kincaid ≤ 100) ∧
      (s.word_count ≠ 0 ∧ s.sentence_count ≠ 0 →
        s.flesch_kincaid =
          clamp0100 (fkFormula s.avg_words_per_sentence s.avg_syllables_per_word)) ∧
      ((s.word_count = 0 ∨ s.sentence_count = 0) →
        s.flesch_kincaid = 0 ∧ s.avg_words_per_sentence = 0 ∧
          s.avg_syllables_per_word = 0)) ∧
    (∀ s, validate_readability_for_audience ("") a.label = .ok s →
      s.flesch_kincaid = 0 ∧ s.word_count = 0 ∧ s.sentence_count = 0 ∧
        s.avg_words_per_sentence = 0 ∧ s.avg_syllables_per_word = 0) := by
  obtain ⟨band, hband⟩ := fkLookup_label a
  have hfields : ∀ (t : String) (s : ReadabilityScore),
      validate_readability_for_audience t a.label = .ok s →
      s.flesch_kincaid = calculate_flesch_kincaid_french t ∧
      s.word_count = (parse_text_stats t).1 ∧
      s.sentence_count = (parse_text_stats t).2.1 ∧
      s.avg_words_per_sentence = (parse_text_stats t).2.2.1 ∧
      s.avg_syllables_per_word = (parse_text_stats t).2.2.2 := by
    intro t s hs
    unfold validate_readability_for_audience at hs
    rw [hband] at hs
    dsimp only at hs
    have hrec := Except.ok.inj hs
    rw [← hrec]
    exact ⟨rfl, rfl, rfl, rfl, rfl⟩
  refine ⟨?_, ?_, ?_⟩
  · unfold validate_readability_for_audience
    rw [hband]
    exact ⟨_, rfl⟩
  · intro s hs
    obtain ⟨hf, hw, hc, ha1, ha2⟩ := hfields text s hs
    refine ⟨?_, ?_, ?_⟩
    · rw [hf, calculate_fk_eq]
      split_ifs with h
      · norm_num
      · exact clamp0100_bounds _
    · intro hnz
      rw [hf, ha1, ha2, calculate_fk_eq, if_neg]
      intro hcontr
      rcases hcontr with hcc | hcc
      · exact hnz.1 (by rw [hw, hcc])
      · exact hnz.2 (by rw [hc, hcc])
    · intro hz
      have hz' : (parse_text_stats text).1 = 0 ∨ (parse_text_stats text).2.1 = 0 := by
        rcases hz with hz | hz
        · exact Or.inl (by rw [← hw, hz])
        · exact Or.inr (by rw [← hc, hz])
      refine ⟨?_, ?_, ?_⟩
      · rw [hf, calculate_fk_eq, if_pos hz']
      · rw [ha1]
        exact (parse_stats_zero text hz').1
      · rw [ha2]
        exact (parse_stats_zero text hz').2
  · intro s hs
    obtain ⟨hf, hw, hc, ha1, ha2⟩ := hfields ("") s hs
    rw [hf, hw, hc, ha1, ha2]
    refine ⟨?_, ?_, ?_, ?_, ?_⟩ <;> decide

/-- C7 witness: the amended theorem instantiated at a concrete text and
audience, plus the concrete score of that text (10 words, 3 sentences,
13 syllables, all inside the claimed bounds). -/
theorem c7_readability_bounds_witness :
    ((∃ s, validate_readability_for_audience ("Le chat dort. Il mange bien. Les oiseaux chantent fort.")
        Audience.adulte.label = .ok s) ∧
      (∀ s, validate_readability_for_audience ("Le chat dort. Il mange bien. Les oiseaux chantent fort.")
          Audience.adulte.label = .ok s →
        (0 ≤ s.flesch_kincaid ∧ s.flesch_kincaid ≤ 100) ∧
        (s.word_count ≠ 0 ∧ s.sentence_count ≠ 0 →
          s.flesch_kincaid =
            clamp0100 (fkFormula s.avg_words_per_sentence s.avg_syllables_per_word)) ∧
        ((s.word_count = 0 ∨ s.sentence_count = 0) →
          s.flesch_kincaid = 0 ∧ s.avg_words_per_sentence = 0 ∧
            s.avg_syllables_per_word = 0)) ∧
      (∀ s, validate_readability_for_audience ("") Audience.adulte.label = .ok s →
        s.flesch_kincaid = 0 ∧ s.word_count = 0 ∧ s.sentence_count = 0 ∧
          s.avg_words_per_sentence = 0 ∧ s.avg_syllables_per_word = 0)) ∧
    (validate_readability_for_audience ("Le chat dort. Il mange bien. Les oiseaux chantent fort.")
        "adulte").toOption.map
      (fun s => (s.word_count, s.sentence_count, s.flesch_kincaid)) =
      some (10, 3, 28091/300) :=
  ⟨c7_readability_bounds ("Le chat dort. Il mange bien. Les oiseaux chantent fort.") .adulte,
   by decide⟩

/-! ## Claims C4/C5/C6 — `generate_lesson` stepping lemmas -/

theorem build_prompt_ne_empty (r : LessonRequest) : build_prompt r ≠ "" := by
  intro h
  have hd := congrArg String.data h
  simp only [build_prompt, String.data_append] at hd
  rcases List.append_eq_nil.mp hd with ⟨hleft, _⟩
  repeat rcases List.append_eq_nil.mp hleft with ⟨hleft, _⟩
  exact absurd hleft (by decide)

theorem validate_prompt_budget_none (r : LessonRequest)
    (hbudget : estimate_tokens (build_prompt r) ≤ MAX_PROMPT_TOKENS) :
    validate_prompt_budget (build_prompt r) r.subject = none := by
  unfold validate_prompt_budget
  rw [if_neg (build_prompt_ne_empty r)]
  dsimp only
  rw [if_neg (Nat.not_lt.mpr hbudget)]

theorem call_openai_reply {o : Oracle} {k : Nat} {c : String} {t : Nat} (mt : Nat)
    (hk : o k = .reply c t) (hc : pyStrip c ≠ "") :
    call_openai o k mt = (.ok (c, t), [mt]) := by
  unfold call_openai
  rw [hk, attemptResult_reply_ok hc]

theorem generate_loop_call_err {o : Oracle} {k mt : Nat} {f : Failure} {tr : List Nat}
    (lastErr : Option (String × String)) (rest : List Nat)
    (hcall : call_openai o k mt = (.error f, tr)) :
    generate_loop o k lastErr (mt :: rest) = (.error f, tr) := by
  unfold generate_loop
  rw [hcall]

theorem generate_loop_parse_ok {o : Oracle} {k mt : Nat} {c : String} {t : Nat}
    {tr : List Nat} {v : JVal} (lastErr : Option (String × String)) (rest : List Nat)
    (hcall : call_openai o k mt = (.ok (c, t), tr))
    (hparse : json_loads c = .ok v) :
    generate_loop o k lastErr (mt :: rest) = (validate_parsed v t, tr) := by
  unfold generate_loop
  rw [hcall]
  dsimp only
  rw [hparse]

theorem generate_loop_parse_err {o : Oracle} {k mt : Nat} {c : String} {t : Nat}
    {tr : List Nat} {e : String} (lastErr : Option (String × String)) (rest : List Nat)
    (hcall : call_openai o k mt = (.ok (c, t), tr))
    (hparse : json_loads c = .error e) :
    generate_loop o k lastErr (mt :: rest) =
      ((generate_loop o (k + tr.length) (some (e, c)) rest).1,
        tr ++ (generate_loop o (k + tr.length) (some (e, c)) rest).2) := by
  conv_lhs => rw [generate_loop]
  rw [hcall]
  dsimp only
  rw [hparse]

theorem generate_loop_nil_some (o : Oracle) (k : Nat) (e c : String) :
    generate_loop o k (some (e, c)) [] =
      (.error (.http 500 (invalid_json_detail e c)), []) := rfl

theorem generate_lesson_eq_loop (o : Oracle) (r : LessonRequest)
    (hbudget : estimate_tokens (build_prompt r) ≤ MAX_PROMPT_TOKENS) :
    generate_lesson o r = generate_loop o 0 none max_tokens_candidates := by
  unfold generate_lesson
  simp only [validate_prompt_budget_none r hbudget]

/-! ## Claim C5 — parse-failure escalation -/

/-- C5: with a prompt inside the budget and a first remote reply that fails
JSON parsing, the generator retries the full remote call at the next
ceiling in `[200, 320]`; a parse failure at every ceiling fails with the
invalid-JSON failure carrying the truncated excerpt of the last offending
reply; a parse success at either ceiling stops the escalation and hands the
parsed value to structural validation. -/
theorem c5_parse_failure_escalation (o : Oracle) (r : LessonRequest)
    (hbudget : estimate_tokens (build_prompt r) ≤ MAX_PROMPT_TOKENS)
    (c1 : String) (t1 : Nat) (h0 : o 0 = .reply c1 t1) (hc1 : pyStrip c1 ≠ "") :
    (∀ e1 c2 t2 v2, json_loads c1 = .error e1 → o 1 = .reply c2 t2 →
      pyStrip c2 ≠ "" → json_loads c2 = .ok v2 →
      generate_lesson o r = (validate_parsed v2 t2, [200, 320])) ∧
    (∀ e1 c2 t2 e2, json_loads c1 = .error e1 → o 1 = .reply c2 t2 →
      pyStrip c2 ≠ "" → json_loads c2 = .error e2 →
      generate_lesson o r =
        (.error (.http 500 (invalid_json_detail e2 c2)), [200, 320])) ∧
    (∀ v1, json_loads c1 = .ok v1 →
      generate_lesson o r = (validate_parsed v1 t1, [200])) := by
  have hcall0 : call_openai o 0 200 = (.ok (c1, t1), [200]) :=
    call_openai_reply 200 h0 hc1
  refine ⟨?_, ?_, ?_⟩
  · intro e1 c2 t2 v2 hp1 h1 hc2 hp2
    rw [generate_lesson_eq_loop o r hbudget]
    show generate_loop o 0 none [200, 320] = _
    rw [generate_loop_parse_err none [320] hcall0 hp1]
    rw [show (0 : Nat) + [(200 : Nat)].length = 1 from rfl]
    rw [generate_loop_parse_ok (some (e1, c1)) [] (call_openai_reply 320 h1 hc2) hp2]
    rfl
  · intro e1 c2 t2 e2 hp1 h1 hc2 hp2
    rw [generate_lesson_eq_loop o r hbudget]
    show generate_loop o 0 none [200, 320] = _
    rw [generate_loop_parse_err none [320] hcall0 hp1]
    rw [show (0 : Nat) + [(200 : Nat)].length = 1 from rfl]
    rw [generate_loop_parse_err (some (e1, c1)) [] (call_openai_reply 320 h1 hc2) hp2]
    rw [generate_loop_nil_some]
    rfl
  · intro v1 hp1
    rw [generate_lesson_eq_loop o r hbudget]
    show generate_loop o 0 none [200, 320] = _
    rw [generate_loop_parse_ok none [320] hcall0 hp1]

/-- C5 witness: with the first reply `"pas du json"` and a second valid
JSON reply, generation retries at ceiling 320 and validates the parsed
object (which succeeds); with both replies unparseable it fails with the
invalid-JSON detail quoting the last reply. -/
theorem c5_parse_failure_escalation_witness :
    generate_lesson
        (fun n => if n = 0 then .reply ("pas du json") 5
          else .reply ("\x7b\"title\": \"T\", \"objectives\": [\"a\"], \"plan\": [\"x\", \"y\"], \"content\": \"c\"\x7d") 9)
        ⟨"Les volcans", .enfant, .short⟩ =
      (validate_parsed
        (.obj [("title", .str ("T")), ("objectives", .arr [.str ("a")]),
               ("plan", .arr [.str ("x"), .str ("y")]), ("content", .str ("c"))]) 9,
       [200, 320]) ∧
    validate_parsed
        (.obj [("title", .str ("T")), ("objectives", .arr [.str ("a")]),
               ("plan", .arr [.str ("x"), .str ("y")]), ("content", .str ("c"))]) 9 =
      .ok (⟨"T", ["a"], ["x", "y"], "c"⟩, 9) ∧
    generate_lesson (fun _ => .reply ("pas du json") 5) ⟨"Les volcans", .enfant, .short⟩ =
      (.error (.http 500 (invalid_json_detail ("Expecting value") "pas du json")), [200, 320]) := by
  have hbudget : estimate_tokens (build_prompt ⟨"Les volcans", .enfant, .short⟩) ≤
      MAX_PROMPT_TOKENS := by decide
  refine ⟨?_, by rfl, ?_⟩
  · exact (c5_parse_failure_escalation
      (fun n => if n = 0 then .reply ("pas du json") 5
        else .reply ("\x7b\"title\": \"T\", \"objectives\": [\"a\"], \"plan\": [\"x\", \"y\"], \"content\": \"c\"\x7d") 9)
      ⟨"Les volcans", .enfant, .short⟩ hbudget ("pas du json") 5 rfl (by decide)).1
      ("Expecting value")
      "\x7b\"title\": \"T\", \"objectives\": [\"a\"], \"plan\": [\"x\", \"y\"], \"content\": \"c\"\x7d" 9
      (.obj [("title", .str ("T")), ("objectives", .arr [.str ("a")]),
             ("plan", .arr [.str ("x"), .str ("y")]), ("content", .str ("c"))])
      rfl rfl (by decide) rfl
  · exact (c5_parse_failure_escalation (fun _ => .reply ("pas du json") 5)
      ⟨"Les volcans", .enfant, .short⟩ hbudget ("pas du json") 5 rfl (by decide)).2.1
      ("Expecting value") "pas du json" 5 ("Expecting value") rfl rfl (by decide) rfl

/-! ## Claim C6 — structural validation (corrected) -/

theorem compute_missing_obj (kvs : List (String × JVal)) :
    compute_missing (.obj kvs) = .ok (missing_of kvs) := by
  unfold compute_missing missing_of required_fields
  simp only [List.foldrM, List.filter, pyInJVal]
  by_cases h1 : kvs.any (fun kv => kv.1 = "title") <;>
    by_cases h2 : kvs.any (fun kv => kv.1 = "objectives") <;>
      by_cases h3 : kvs.any (fun kv => kv.1 = "plan") <;>
        by_cases h4 : kvs.any (fun kv => kv.1 = "content") <;>
          simp [h1, h2, h3, h4] <;> rfl

theorem validate_parsed_obj (kvs : List (String × JVal)) (t : Nat) :
    validate_parsed (.obj kvs) t =
      if missing_of kvs ≠ [] then
        .error (.http 500 ("OpenAI n\x27a pas fourni les champs requis: " ++
          pyJoin (", ") (missing_of kvs)))
      else if !jvalIsList (objValue kvs ("objectives")) then
        .error (.http 500 ("Le champ \x27objectives\x27 doit être une liste"))
      else if !jvalIsList (objValue kvs ("plan")) then
        .error (.http 500 ("Le champ \x27plan\x27 doit être une liste"))
      else if jvalLen (objValue kvs ("objectives")) < 1 then
        .error (.http 500 ("Au moins un objectif est requis"))
      else if jvalLen (objValue kvs ("plan")) < 2 then
        .error (.http 500 ("Au moins 2 sections sont requises dans le plan"))
      else (construct_lesson_content (.obj kvs)).map (fun lc => (lc, t)) := by
  unfold validate_parsed
  rw [compute_missing_obj]
  dsimp only [jvalGet]
  by_cases hm : missing_of kvs = [] <;> simp only [hm, if_true, if_false, ite_not]
  · by_cases ho : jvalIsList (objValue kvs ("objectives")) <;>
      simp only [ho, Bool.not_true, Bool.not_false, if_true, if_false]
    · by_cases hp : jvalIsList (objValue kvs ("plan")) <;>
        simp only [hp, Bool.not_true, Bool.not_false, if_true, if_false]
      · by_cases hlo : jvalLen (objValue kvs ("objectives")) < 1 <;>
          simp only [hlo, if_true, if_false]
        by_cases hlp : jvalLen (objValue kvs ("plan")) < 2 <;>
          simp only [hlp, if_true, if_false]
        cases construct_lesson_content (.obj kvs) <;> rfl

/-- C6 counterexample to the claim as stated: the reply `"5"` parses
successfully (to a JSON number) and every required key is absent from it,
but instead of the HTTP 500 missing-fields condition the code raises an
uncaught `TypeError` (Python `"title" in 5`). -/
theorem c6_counterexample :
    json_loads ("5") = .ok (.num 5) ∧
    generate_lesson (fun _ => .reply ("5") 3) ⟨"Les volcans", .enfant, .short⟩ =
      (.error (.pyError ("TypeError") "argument of type is not iterable"), [200]) ∧
    Failure.isHttp (.pyError ("TypeError") "argument of type is not iterable") = false := by
  refine ⟨rfl, ?_, rfl⟩
  rfl

/-- C6 (amended to replies that parse to JSON objects): generation fails
with the HTTP 500 missing-fields condition naming exactly the absent keys
when any of title/objectives/plan/content is missing, with the wrong-type
condition when objectives (then plan) is not a list, with the
insufficient-content condition when objectives has fewer than 1 entry or
plan fewer than 2, and otherwise returns exactly the pydantic construction
of the object together with the reported token usage. -/
theorem c6_structural_validation (o : Oracle) (r : LessonRequest)
    (hbudget : estimate_tokens (build_prompt r) ≤ MAX_PROMPT_TOKENS)
    (c : String) (t : Nat) (kvs : List (String × JVal))
    (h0 : o 0 = .reply c t) (hc : pyStrip c ≠ "")
    (hp : json_loads c = .ok (.obj kvs)) :
    (missing_of kvs ≠ [] → generate_lesson o r =
      (.error (.http 500 ("OpenAI n\x27a pas fourni les champs requis: " ++
        pyJoin (", ") (missing_of kvs))), [200])) ∧
    (missing_of kvs = [] → jvalIsList (objValue kvs ("objectives")) = false →
      generate_lesson o r =
        (.error (.http 500 ("Le champ \x27objectives\x27 doit être une liste")), [200])) ∧
    (missing_of kvs = [] → jvalIsList (objValue kvs ("objectives")) = true →
      jvalIsList (objValue kvs ("plan")) = false →
      generate_lesson o r =
        (.error (.http 500 ("Le champ \x27plan\x27 doit être une liste")), [200])) ∧
    (missing_of kvs = [] → jvalIsList (objValue kvs ("objectives")) = true →
      jvalIsList (objValue kvs ("plan")) = true →
      jvalLen (objValue kvs ("objectives")) < 1 →
      generate_lesson o r =
        (.error (.http 500 ("Au moins un objectif est requis")), [200])) ∧
    (missing_of kvs = [] → jvalIsList (objValue kvs ("objectives")) = true →
      jvalIsList (objValue kvs ("plan")) = true →
      1 ≤ jvalLen (objValue kvs ("objectives")) → jvalLen (objValue kvs ("plan")) < 2 →
      generate_lesson o r =
        (.error (.http 500 ("Au moins 2 sections sont requises dans le plan")), [200])) ∧
    (missing_of kvs = [] → jvalIsList (objValue kvs ("objectives")) = true →
      jvalIsList (objValue kvs ("plan")) = true →
      1 ≤ jvalLen (objValue kvs ("objectives")) → 2 ≤ jvalLen (objValue kvs ("plan")) →
      generate_lesson o r =
        ((construct_lesson_content (.obj kvs)).map (fun lc => (lc, t)), [200])) := by
  have hgen : generate_lesson o r = (validate_parsed (.obj kvs) t, [200]) := by
    rw [generate_lesson_eq_loop o r hbudget]
    exact generate_loop_parse_ok none [320] (call_openai_reply 200 h0 hc) hp
  rw [hgen, validate_parsed_obj]
  refine ⟨?_, ?_, ?_, ?_, ?_, ?_⟩
  · intro hm
    rw [if_pos hm]
  · intro hm ho
    rw [if_neg (by simp [hm]), if_pos (by simp [ho])]
  · intro hm ho hpl
    rw [if_neg (by simp [hm]), if_neg (by simp [ho]), if_pos (by simp [hpl])]
  · intro hm ho hpl hlo
    rw [if_neg (by simp [hm]), if_neg (by simp [ho]), if_neg (by simp [hpl]),
        if_pos hlo]
  · intro hm ho hpl hlo hlp
    rw [if_neg (by simp [hm]), if_neg (by simp [ho]), if_neg (by simp [hpl]),
        if_neg (by omega), if_pos hlp]
  · intro hm ho hpl hlo hlp
    rw [if_neg (by simp [hm]), if_neg (by simp [ho]), if_neg (by simp [hpl]),
        if_neg (by omega), if_neg (by omega)]

/-- C6 witness: a reply missing objectives, plan and content fails naming
exactly those keys; a complete well-typed reply constructs the
`LessonContent` with the reported token usage. -/
theorem c6_structural_validation_witness :
    generate_lesson (fun _ => .reply ("\x7b\"title\": \"T\"\x7d") 3)
        ⟨"Les volcans", .enfant, .short⟩ =
      (.error (.http 500 ("OpenAI n\x27a pas fourni les champs requis: " ++
        pyJoin (", ") (missing_of [("title", .str ("T"))]))), [200]) ∧
    pyJoin (", ") (missing_of [("title", .str ("T"))]) = "objectives, plan, content" ∧
    generate_lesson
        (fun _ => .reply ("\x7b\"title\": \"T\", \"objectives\": [\"a\"], \"plan\": [\"x\", \"y\"], \"content\": \"c\"\x7d") 9)
        ⟨"Les volcans", .enfant, .short⟩ =
      ((construct_lesson_content
          (.obj [("title", .str ("T")), ("objectives", .arr [.str ("a")]),
                 ("plan", .arr [.str ("x"), .str ("y")]), ("content", .str ("c"))])).map
        (fun lc => (lc, 9)), [200]) ∧
    construct_lesson_content
        (.obj [("title", .str ("T")), ("objectives", .arr [.str ("a")]),
               ("plan", .arr [.str ("x"), .str ("y")]), ("content", .str ("c"))]) =
      .ok ⟨"T", ["a"], ["x", "y"], "c"⟩ := by
  have hbudget : estimate_tokens (build_prompt ⟨"Les volcans", .enfant, .short⟩) ≤
      MAX_PROMPT_TOKENS := by decide
  refine ⟨?_, by decide, ?_, by rfl⟩
  · exact (c6_structural_validation (fun _ => .reply ("\x7b\"title\": \"T\"\x7d") 3)
      ⟨"Les volcans", .enfant, .short⟩ hbudget ("\x7b\"title\": \"T\"\x7d") 3
      [("title", .str ("T"))] rfl (by decide) rfl).1 (by decide)
  · exact (c6_structural_validation
      (fun _ => .reply ("\x7b\"title\": \"T\", \"objectives\": [\"a\"], \"plan\": [\"x\", \"y\"], \"content\": \"c\"\x7d") 9)
      ⟨"Les volcans", .enfant, .short⟩ hbudget
      ("\x7b\"title\": \"T\", \"objectives\": [\"a\"], \"plan\": [\"x\", \"y\"], \"content\": \"c\"\x7d") 9
      [("title", .str ("T")), ("objectives", .arr [.str ("a")]),
       ("plan", .arr [.str ("x"), .str ("y")]), ("content", .str ("c"))]
      rfl (by decide) rfl).2.2.2.2.2 (by decide) (by decide) (by decide)
      (by decide) (by decide)

/-! ## Claim C8 — two-pass formatting -/

theorem build_markdown_lines_some (content : LessonContent) (r : RSummary) :
    build_markdown_lines content (some r) =
      build_markdown_lines content none ++
        ("## Métriques de lisibilité" ::
          ((summaryPairs r).map (fun kv => "- " ++ kv.1 ++ ": " ++ kv.2) ++ [""])) := by
  simp [build_markdown_lines]

theorem build_markdown_lines_ne_nil (content : LessonContent) :
    build_markdown_lines content none ≠ [] := by
  simp [build_markdown_lines]

theorem metrics_block_eq (r : RSummary) :
    "\n" ++ pyJoin ("\n")
        ("## Métriques de lisibilité" ::
          ((summaryPairs r).map (fun kv => "- " ++ kv.1 ++ ": " ++ kv.2) ++ [""])) =
      spec_metrics_section (summaryPairs r) := by
  apply string_ext
  simp [pyJoin, summaryPairs, spec_metrics_section, String.join, String.data_append]

theorem build_markdown_some (content : LessonContent) (r : RSummary) :
    build_markdown content (some r) =
      build_markdown content none ++ spec_metrics_section (summaryPairs r) := by
  unfold build_markdown
  rw [build_markdown_lines_some]
  rw [pyJoin_append ("\n") _ _ (build_markdown_lines_ne_nil content) (by simp)]
  rw [String.append_assoc, metrics_block_eq]

/-- C8: formatting scores the base document (the render without a metrics
section): the returned readability summary is the summary of that base
score, and the returned markdown is the base document followed by a
trailing metrics section listing exactly the summary's key/value pairs. -/
theorem c8_two_pass_formatting (content : LessonContent) (a : Audience) :
    ∃ score,
      validate_readability_for_audience (build_markdown content none) a.label = .ok score ∧
      format_lesson content a.label = .ok
        ⟨content.title,
         build_markdown content none ++
           spec_metrics_section (summaryPairs (get_readability_summary score)),
         get_readability_summary score⟩ := by
  obtain ⟨band, hband⟩ := fkLookup_label a
  have hval : ∃ score, validate_readability_for_audience
      (build_markdown content none) a.label = .ok score := by
    unfold validate_readability_for_audience
    rw [hband]
    exact ⟨_, rfl⟩
  obtain ⟨score, hscore⟩ := hval
  refine ⟨score, hscore, ?_⟩
  unfold format_lesson
  simp only [hscore]
  rw [build_markdown_some]

/-- C8 witness: the theorem instantiated at a concrete lesson content and
audience, together with the concrete readability summary of the base
document and the concrete markdown equality. -/
theorem c8_two_pass_formatting_witness :
    (∃ score,
      validate_readability_for_audience
          (build_markdown ⟨"T", ["obj1"], ["p1", "p2"], "Texte."⟩ none)
          Audience.enfant.label = .ok score ∧
      format_lesson ⟨"T", ["obj1"], ["p1", "p2"], "Texte."⟩ Audience.enfant.label = .ok
        ⟨"T",
         build_markdown ⟨"T", ["obj1"], ["p1", "p2"], "Texte."⟩ none ++
           spec_metrics_section (summaryPairs (get_readability_summary score)),
         get_readability_summary score⟩) ∧
    (format_lesson ⟨"T", ["obj1"], ["p1", "p2"], "Texte."⟩ "enfant").toOption.map
        (fun fm => fm.readability.word_count) = some 9 :=
  ⟨c8_two_pass_formatting ⟨"T", ["obj1"], ["p1", "p2"], "Texte."⟩ .enfant, by rfl⟩

/-! ## Claims C1/C10 — orchestration lemmas -/

theorem validate_ok_label (t : String) (a : Audience) :
    ∃ s, validate_readability_for_audience t a.label = .ok s := by
  obtain ⟨band, hband⟩ := fkLookup_label a
  unfold validate_readability_for_audience
  rw [hband]
  exact ⟨_, rfl⟩

theorem format_lesson_ok (lc : LessonContent) (a : Audience) :
    ∃ fm, format_lesson lc a.label = .ok fm := by
  obtain ⟨s, hs⟩ := validate_ok_label (build_markdown lc none) a
  unfold format_lesson
  simp only [hs]
  exact ⟨_, rfl⟩

theorem create_lesson_of_find_none (H : String → String) (o : Oracle)
    (reqId lessonId : String) (db : List RequestRow) (r : LessonRequest)
    (hfind : findByHash db (compute_request_hash H r) = none) :
    create_lesson H o reqId lessonId db r =
      create_lesson_miss o reqId lessonId db r (compute_request_hash H r) := by
  unfold create_lesson
  simp only [hfind]

theorem create_lesson_of_find_lessonless (H : String → String) (o : Oracle)
    (reqId lessonId : String) (db : List RequestRow) (r : LessonRequest)
    (ex : RequestRow)
    (hfind : findByHash db (compute_request_hash H r) = some ex)
    (hl : ex.lessons = []) :
    create_lesson H o reqId lessonId db r =
      create_lesson_miss o reqId lessonId db r (compute_request_hash H r) := by
  unfold create_lesson
  simp only [hfind, hl]

theorem create_lesson_of_find_hit (H : String → String) (o : Oracle)
    (reqId lessonId : String) (db : List RequestRow) (r : LessonRequest)
    (ex : RequestRow) (l0 : LessonRow) (rest : List LessonRow)
    (hfind : findByHash db (compute_request_hash H r) = some ex)
    (hl : ex.lessons = l0 :: rest) :
    ∃ sc, validate_readability_for_audience l0.content_md r.audience.label = .ok sc ∧
      create_lesson H o reqId lessonId db r =
        (.ok (⟨l0.id, l0.title, true, get_readability_summary sc, 0⟩, db), []) := by
  obtain ⟨sc, hsc⟩ := validate_ok_label l0.content_md r.audience
  refine ⟨sc, hsc, ?_⟩
  unfold create_lesson
  simp only [hfind, hl, hsc]

theorem create_lesson_miss_ok (o : Oracle) (reqId lessonId : String)
    (db : List RequestRow) (r : LessonRequest) (h : String)
    (lc : LessonContent) (tk : Nat) (tr : List Nat)
    (hgen : generate_lesson o r = (.ok (lc, tk), tr)) :
    ∃ fm sc, format_lesson lc r.audience.label = .ok fm ∧
      validate_readability_for_audience fm.markdown r.audience.label = .ok sc ∧
      create_lesson_miss o reqId lessonId db r h =
        (.ok (⟨lessonId, lc.title, false, get_readability_summary sc, tk⟩,
          db ++ [⟨reqId, r.subject, r.audience.label, r.duration.label, h,
            [⟨lessonId, reqId, lc.title, fm.markdown, lc.objectives, lc.plan⟩]⟩]), tr) := by
  obtain ⟨fm, hfm⟩ := format_lesson_ok lc r.audience
  obtain ⟨sc, hsc⟩ := validate_ok_label fm.markdown r.audience
  refine ⟨fm, sc, hfm, hsc, ?_⟩
  unfold create_lesson_miss
  simp only [hgen, hfm, hsc]

/-! ## Claim C10 — a lesson-less request row is not a cache hit -/

/-- C10: when the first request row carrying the hash has no lessons, the
call proceeds as a cache miss: it generates, appends a brand-new
Request+Lesson pair (a second row with the same `input_hash`), returns
`from_cache = false` with the fresh lesson id, and leaves the existing
lesson-less row (still present, unchanged, lesson-less) alone. -/
theorem c10_lessonless_row_is_miss (H : String → String) (o : Oracle)
    (reqId lessonId : String) (db : List RequestRow) (r : LessonRequest)
    (ex : RequestRow) (lc : LessonContent) (tk : Nat) (tr : List Nat)
    (hfind : findByHash db (compute_request_hash H r) = some ex)
    (hl : ex.lessons = [])
    (hgen : generate_lesson o r = (.ok (lc, tk), tr)) :
    ∃ fm sc, format_lesson lc r.audience.label = .ok fm ∧
      validate_readability_for_audience fm.markdown r.audience.label = .ok sc ∧
      create_lesson H o reqId lessonId db r =
        (.ok (⟨lessonId, lc.title, false, get_readability_summary sc, tk⟩,
          db ++ [⟨reqId, r.subject, r.audience.label, r.duration.label,
            compute_request_hash H r,
            [⟨lessonId, reqId, lc.title, fm.markdown, lc.objectives, lc.plan⟩]⟩]), tr) ∧
      ex.input_hash = compute_request_hash H r ∧ ex ∈ db := by
  obtain ⟨fm, sc, hfm, hsc, hmiss⟩ :=
    create_lesson_miss_ok o reqId lessonId db r (compute_request_hash H r) lc tk tr hgen
  refine ⟨fm, sc, hfm, hsc, ?_, ?_, ?_⟩
  · rw [create_lesson_of_find_lessonless H o reqId lessonId db r ex hfind hl]
    exact hmiss
  · have := List.find?_some hfind
    simpa using this
  · exact List.mem_of_find?_eq_some hfind

/-- C10 witness: a database holding one lesson-less row under the hash of
the request; the call returns `from_cache = false`, a fresh id, and appends
a second row with the same hash while keeping the old row first. -/
theorem c10_lessonless_row_is_miss_witness :
    ∃ fm sc,
      format_lesson ⟨"T", ["a"], ["x", "y"], "c"⟩ (LessonRequest.audience ⟨"Les volcans", .enfant, .short⟩).label = .ok fm ∧
      validate_readability_for_audience fm.markdown
        (LessonRequest.audience ⟨"Les volcans", .enfant, .short⟩).label = .ok sc ∧
      create_lesson id
        (fun _ => .reply ("\x7b\"title\": \"T\", \"objectives\": [\"a\"], \"plan\": [\"x\", \"y\"], \"content\": \"c\"\x7d") 9)
        "R2" "L2"
        [⟨"R1", "Les volcans", "enfant", "short",
          compute_request_hash id ⟨"Les volcans", .enfant, .short⟩, []⟩]
        ⟨"Les volcans", .enfant, .short⟩ =
        (.ok (⟨"L2", "T", false, get_readability_summary sc, 9⟩,
          [⟨"R1", "Les volcans", "enfant", "short",
            compute_request_hash id ⟨"Les volcans", .enfant, .short⟩, []⟩] ++
          [⟨"R2", "Les volcans", "enfant", "short",
            compute_request_hash id ⟨"Les volcans", .enfant, .short⟩,
            [⟨"L2", "R2", "T", fm.markdown, ["a"], ["x", "y"]⟩]⟩]), [200]) ∧
      RequestRow.input_hash ⟨"R1", "Les volcans", "enfant", "short",
          compute_request_hash id ⟨"Les volcans", .enfant, .short⟩, []⟩ =
        compute_request_hash id ⟨"Les volcans", .enfant, .short⟩ ∧
      (⟨"R1", "Les volcans", "enfant", "short",
          compute_request_hash id ⟨"Les volcans", .enfant, .short⟩, []⟩ : RequestRow) ∈
        [⟨"R1", "Les volcans", "enfant", "short",
          compute_request_hash id ⟨"Les volcans", .enfant, .short⟩, []⟩] :=
  c10_lessonless_row_is_miss id
    (fun _ => .reply ("\x7b\"title\": \"T\", \"objectives\": [\"a\"], \"plan\": [\"x\", \"y\"], \"content\": \"c\"\x7d") 9)
    "R2" "L2"
    [⟨"R1", "Les volcans", "enfant", "short",
      compute_request_hash id ⟨"Les volcans", .enfant, .short⟩, []⟩]
    ⟨"Les volcans", .enfant, .short⟩
    ⟨"R1", "Les volcans", "enfant", "short",
      compute_request_hash id ⟨"Les volcans", .enfant, .short⟩, []⟩
    ⟨"T", ["a"], ["x", "y"], "c"⟩ 9 [200]
    (by rw [findByHash]; simp)
    rfl
    (by rfl)

/-! ## Claim C1 — idempotent creation -/

/-- C1: the request hash is deterministic, and after a first call that
found no row under the hash and persisted a generated lesson, a second call
with the same request returns the same lesson id with `from_cache = true`,
`tokens_used = 0`, zero remote calls, and a quality summary freshly
recomputed from the stored markdown. -/
theorem c1_idempotent_creation (H : String → String) (o o2 : Oracle)
    (reqId lessonId reqId2 lessonId2 : String) (db : List RequestRow)
    (r : LessonRequest) (lc : LessonContent) (tk : Nat) (tr : List Nat)
    (hfind : findByHash db (compute_request_hash H r) = none)
    (hgen : generate_lesson o r = (.ok (lc, tk), tr)) :
    compute_request_hash H r = compute_request_hash H r ∧
    ∃ fm sc,
      format_lesson lc r.audience.label = .ok fm ∧
      validate_readability_for_audience fm.markdown r.audience.label = .ok sc ∧
      ∃ row : RequestRow,
        row = ⟨reqId, r.subject, r.audience.label, r.duration.label,
          compute_request_hash H r,
          [⟨lessonId, reqId, lc.title, fm.markdown, lc.objectives, lc.plan⟩]⟩ ∧
        create_lesson H o reqId lessonId db r =
          (.ok (⟨lessonId, lc.title, false, get_readability_summary sc, tk⟩,
            db ++ [row]), tr) ∧
        create_lesson H o2 reqId2 lessonId2 (db ++ [row]) r =
          (.ok (⟨lessonId, lc.title, true, get_readability_summary sc, 0⟩,
            db ++ [row]), []) := by
  obtain ⟨fm, sc, hfm, hsc, hmiss⟩ :=
    create_lesson_miss_ok o reqId lessonId db r (compute_request_hash H r) lc tk tr hgen
  refine ⟨rfl, fm, sc, hfm, hsc, _, rfl, ?_, ?_⟩
  · rw [create_lesson_of_find_none H o reqId lessonId db r hfind]
    exact hmiss
  · have hfind2 : findByHash
        (db ++ [⟨reqId, r.subject, r.audience.label, r.duration.label,
          compute_request_hash H r,
          [⟨lessonId, reqId, lc.title, fm.markdown, lc.objectives, lc.plan⟩]⟩])
        (compute_request_hash H r) =
        some ⟨reqId, r.subject, r.audience.label, r.duration.label,
          compute_request_hash H r,
          [⟨lessonId, reqId, lc.title, fm.markdown, lc.objectives, lc.plan⟩]⟩ := by
      unfold findByHash at hfind ⊢
      rw [List.find?_append, hfind]
      simp [List.find?]
    obtain ⟨sc2, hsc2, hhit⟩ := create_lesson_of_find_hit H o2 reqId2 lessonId2 _ r _
      ⟨lessonId, reqId, lc.title, fm.markdown, lc.objectives, lc.plan⟩ [] hfind2 rfl
    have hsc2eq : sc2 = sc := (Except.ok.inj (hsc.symm.trans hsc2)).symm
    rw [hsc2eq] at hhit
    exact hhit

/-- C1 witness: on an empty database, the first call persists and returns
`from_cache = false`; the second call with the same request returns the
same lesson id "L1" with `from_cache = true`, `tokens_used = 0` and no
remote calls. -/
theorem c1_idempotent_creation_witness :
    compute_request_hash id ⟨"Les volcans", .enfant, .short⟩ =
      compute_request_hash id ⟨"Les volcans", .enfant, .short⟩ ∧
    ∃ fm sc,
      format_lesson ⟨"T", ["a"], ["x", "y"], "c"⟩
        (LessonRequest.audience ⟨"Les volcans", .enfant, .short⟩).label = .ok fm ∧
      validate_readability_for_audience fm.markdown
        (LessonRequest.audience ⟨"Les volcans", .enfant, .short⟩).label = .ok sc ∧
      ∃ row : RequestRow,
        row = ⟨"R1", "Les volcans", "enfant", "short",
          compute_request_hash id ⟨"Les volcans", .enfant, .short⟩,
          [⟨"L1", "R1", "T", fm.markdown, ["a"], ["x", "y"]⟩]⟩ ∧
        create_lesson id
          (fun _ => .reply ("\x7b\"title\": \"T\", \"objectives\": [\"a\"], \"plan\": [\"x\", \"y\"], \"content\": \"c\"\x7d") 9)
          "R1" "L1" [] ⟨"Les volcans", .enfant, .short⟩ =
          (.ok (⟨"L1", "T", false, get_readability_summary sc, 9⟩, [] ++ [row]), [200]) ∧
        create_lesson id
          (fun _ => .reply ("\x7b\"title\": \"T\", \"objectives\": [\"a\"], \"plan\": [\"x\", \"y\"], \"content\": \"c\"\x7d") 9)
          "R2" "L2" ([] ++ [row]) ⟨"Les volcans", .enfant, .short⟩ =
          (.ok (⟨"L1", "T", true, get_readability_summary sc, 0⟩, [] ++ [row]), []) :=
  c1_idempotent_creation id
    (fun _ => .reply ("\x7b\"title\": \"T\", \"objectives\": [\"a\"], \"plan\": [\"x\", \"y\"], \"content\": \"c\"\x7d") 9)
    (fun _ => .reply ("\x7b\"title\": \"T\", \"objectives\": [\"a\"], \"plan\": [\"x\", \"y\"], \"content\": \"c\"\x7d") 9)
    "R1" "L1" "R2" "L2" [] ⟨"Les volcans", .enfant, .short⟩
    ⟨"T", ["a"], ["x", "y"], "c"⟩ 9 [200] rfl (by rfl)

/-! ## Claim C4 — budget gate -/

/-- C4: whenever the estimated token count of the built prompt exceeds the
prompt ceiling (2000 − 200 = 1800), generation fails with the HTTP 413
condition carrying the estimate, the limit and the truncated subject, and
no remote call is ever made — for every oracle, the call trace is empty. -/
theorem c4_budget_gate (r : LessonRequest)
    (h : MAX_PROMPT_TOKENS < estimate_tokens (build_prompt r)) :
    ∀ o : Oracle, generate_lesson o r =
      (.error (.http 413 (budget_detail (estimate_tokens (build_prompt r)) r.subject)), []) := by
  intro o
  unfold generate_lesson
  have hval : validate_prompt_budget (build_prompt r) r.subject =
      some (.http 413 (budget_detail (estimate_tokens (build_prompt r)) r.subject)) := by
    unfold validate_prompt_budget
    rw [if_neg (build_prompt_ne_empty r)]
    dsimp only
    rw [if_pos h]
  simp only [hval]

theorem build_prompt_data_split (s : String) :
    (build_prompt ⟨s, .enfant, .short⟩).data =
      promptPrefixCore.data ++ (':' :: ' ' :: (s.data ++ promptSuffix.data)) := by
  have hA : ∀ X : List Char,
      ("Tu es un assistant pédagogique expert. Tu dois répondre UNIQUEMENT avec un JSON valide " : String).data ++
        (("contenant exactement ces 4 clés : \x27title\x27, \x27objectives\x27, \x27plan\x27, \x27content\x27.\n\n" : String).data ++
          (("FOCUS: Contenu explicatif de qualité avec analogies et exemples concrets.\n\n" : String).data ++
            (("Sujet: " : String).data ++ X))) =
      promptPrefixCore.data ++ (':' :: ' ' :: X) := by
    intro X
    have h0 : ("Tu es un assistant pédagogique expert. Tu dois répondre UNIQUEMENT avec un JSON valide " : String).data ++
        (("contenant exactement ces 4 clés : \x27title\x27, \x27objectives\x27, \x27plan\x27, \x27content\x27.\n\n" : String).data ++
          (("FOCUS: Contenu explicatif de qualité avec analogies et exemples concrets.\n\n" : String).data ++
            ("Sujet: " : String).data)) =
        promptPrefixCore.data ++ [':', ' '] := by decide
    calc ("Tu es un assistant pédagogique expert. Tu dois répondre UNIQUEMENT avec un JSON valide " : String).data ++
        (("contenant exactement ces 4 clés : \x27title\x27, \x27objectives\x27, \x27plan\x27, \x27content\x27.\n\n" : String).data ++
          (("FOCUS: Contenu explicatif de qualité avec analogies et exemples concrets.\n\n" : String).data ++
            (("Sujet: " : String).data ++ X)))
        = (("Tu es un assistant pédagogique expert. Tu dois répondre UNIQUEMENT avec un JSON valide " : String).data ++
            (("contenant exactement ces 4 clés : \x27title\x27, \x27objectives\x27, \x27plan\x27, \x27content\x27.\n\n" : String).data ++
              (("FOCUS: Contenu explicatif de qualité avec analogies et exemples concrets.\n\n" : String).data ++
                ("Sujet: " : String).data))) ++ X := by
          simp [List.append_assoc]
      _ = (promptPrefixCore.data ++ [':', ' ']) ++ X := by rw [h0]
      _ = promptPrefixCore.data ++ (':' :: ' ' :: X) := by simp [List.append_assoc]
  have hB : ("\n" : String).data ++ (("Audience: " : String).data ++
      (("enfant" : String).data ++ (("\n" : String).data ++
        (("Durée: " : String).data ++ (("short" : String).data ++
          (("\n\n" : String).data ++ (("Format attendu:\n" : String).data ++
            (("\x7b\n" : String).data ++
              (("  \"title\": \"Titre adapté au niveau\",\n" : String).data ++
                (("  \"objectives\": [\"Objectif pédagogique 1\", \"Objectif 2\"],\n" : String).data ++
                  (("  \"plan\": [\"Section 1\", \"Section 2\", \"Section 3\"],\n" : String).data ++
                    (("  \"content\": \"Contenu vulgarisé avec analogies et exemples\"\n" : String).data ++
                      ("\x7d" : String).data)))))))))))) = promptSuffix.data := by decide
  simp only [build_prompt, String.data_append, Audience.label, Duration.label,
    List.append_assoc]
  rw [hB]
  exact hA _

/-- The prompt of a request whose subject is `n` letters `a`, as an
explicit character list. -/
theorem build_prompt_replicate (n : Nat) :
    build_prompt ⟨String.mk (List.replicate n 'a'), .enfant, .short⟩ =
      String.mk (promptPrefixCore.data ++
        (':' :: ' ' :: (List.replicate n 'a' ++ promptSuffix.data))) := by
  apply string_ext
  exact build_prompt_data_split (String.mk (List.replicate n 'a'))

/-- The exact token estimate of the prompt built over a subject of `n`
letters `a` (`n ≥ 1`): the collapsed prompt has `492 + n` characters. -/
theorem estimate_tokens_big_subject (n : Nat) (hn : 1 ≤ n) :
    estimate_tokens (build_prompt ⟨String.mk (List.replicate n 'a'), .enfant, .short⟩) =
      ((492 + n) / 4) * 6 / 5 := by
  obtain ⟨m, rfl⟩ : ∃ m, n = m + 1 := ⟨n - 1, by omega⟩
  rw [build_prompt_replicate]
  have hstrip : pyStripList (promptPrefixCore.data ++
      (':' :: ' ' :: (List.replicate (m + 1) 'a' ++ promptSuffix.data))) =
      promptPrefixCore.data ++
        (':' :: ' ' :: (List.replicate (m + 1) 'a' ++ promptSuffix.data)) := by
    apply pyStripList_eq_self
    · exact dropWhile_append_of_self _ (by decide) (by decide)
    · simp only [List.reverse_append, List.reverse_cons, List.reverse_replicate,
        List.append_assoc, List.nil_append, List.cons_append]
      apply dropWhile_append_of_self
      · decide
      · decide
  have htl : (String.mk (promptPrefixCore.data ++
      (':' :: ' ' :: (List.replicate (m + 1) 'a' ++ promptSuffix.data)))).toList =
      promptPrefixCore.data ++
        (':' :: ' ' :: (List.replicate (m + 1) 'a' ++ promptSuffix.data)) := rfl
  have hne : pyStrip (String.mk (promptPrefixCore.data ++
      (':' :: ' ' :: (List.replicate (m + 1) 'a' ++ promptSuffix.data)))) ≠ "" := by
    unfold pyStrip
    rw [htl, hstrip]
    intro hcontr
    have hd := congrArg String.data hcontr
    have h2 := List.append_eq_nil.mp hd
    exact absurd h2.1 (by decide)
  have hcol : collapseWsList (promptPrefixCore.data ++
      (':' :: ' ' :: (List.replicate (m + 1) 'a' ++ promptSuffix.data))) =
      collapseWsList (promptPrefixCore.data ++ [':']) ++
        (' ' :: ('a' :: (List.replicate m 'a' ++ collapseWsList promptSuffix.data))) := by
    unfold collapseWsList
    rw [(squeeze_split isPyWs ' ' ':' (by decide)
      (' ' :: (List.replicate (m + 1) 'a' ++ promptSuffix.data)) promptPrefixCore.data).1]
    congr 1
    rw [List.replicate_succ, List.cons_append]
    show (if isPyWs ' ' = true then
        ' ' :: squeezeRunsGap isPyWs ' ' ('a' :: (List.replicate m 'a' ++ promptSuffix.data))
      else _) = _
    rw [if_pos (by decide)]
    congr 1
    show (if isPyWs 'a' = true then _
      else 'a' :: squeezeRuns isPyWs ' ' (List.replicate m 'a' ++ promptSuffix.data)) = _
    rw [if_neg (by decide)]
    congr 1
    exact squeezeRuns_replicate isPyWs ' ' 'a' (by decide) promptSuffix.data m
  unfold estimate_tokens
  rw [if_neg hne]
  dsimp only
  rw [htl, hstrip, hcol]
  simp only [List.length_append, List.length_cons, List.length_replicate]
  rw [show (collapseWsList (promptPrefixCore.data ++ [':'])).length = 243 from by decide]
  rw [show (collapseWsList promptSuffix.data).length = 248 from by decide]
  congr 2
  omega

/-- C4 witness: a request whose subject is 5600 letters builds a prompt
estimated at `(6092 / 4) · 6 / 5 = 1827 > 1800` tokens, so generation
fails with the 413 budget condition and makes zero remote calls for every
oracle. -/
theorem c4_budget_gate_witness :
    MAX_PROMPT_TOKENS < estimate_tokens
      (build_prompt ⟨String.mk (List.replicate 5600 'a'), .enfant, .short⟩) ∧
    ∀ o : Oracle, generate_lesson o ⟨String.mk (List.replicate 5600 'a'), .enfant, .short⟩ =
      (.error (.http 413 (budget_detail
        (estimate_tokens (build_prompt ⟨String.mk (List.replicate 5600 'a'), .enfant, .short⟩))
        (LessonRequest.subject ⟨String.mk (List.replicate 5600 'a'), .enfant, .short⟩))), []) := by
  have hval : estimate_tokens
      (build_prompt ⟨String.mk (List.replicate 5600 'a'), .enfant, .short⟩) = 1827 := by
    rw [estimate_tokens_big_subject 5600 (by omega)]
  have hgt : MAX_PROMPT_TOKENS < estimate_tokens
      (build_prompt ⟨String.mk (List.replicate 5600 'a'), .enfant, .short⟩) := by
    rw [hval]
    decide
  exact ⟨hgt, c4_budget_gate ⟨String.mk (List.replicate 5600 'a'), .enfant, .short⟩ hgt⟩

end Skillence
